import Mathlib

/-!
# Pilot watch face (`src/watch.c`): geometry, dial drawing, timers and windows

A shallow embedding of `src/watch.c`.

* C `int` values are `Int`.  Sums and products of `int` whose operands no
  theorem bounds (the geometry and the tick loop) are reduced to 32 bits
  explicitly (`int32`); everywhere else the operands are 16-bit values, clock
  fields or small constants and the results stay far below `2^31`.  Every
  store into the 16-bit fields of `GPoint` and `GRect` is reduced explicitly
  (`int16`).
* C `double` expressions are evaluated exactly in an ordered field `α` with a
  floor function.  With `α = ℚ` every definition below is executable.  A
  quotient the code rounds either sits exactly on a rounding boundary, where
  the IEEE evaluation is exact as well, or is at least `1/131070` away from
  one, far more than the IEEE error on the ranges covered, so both
  evaluations round alike.
* `sin_lookup` and `cos_lookup` belong to the platform SDK and are parameters.
* The graphics context is the list of drawing calls issued, in order.
-/

namespace PilotWatch

/-! ## Platform types and constants (Pebble SDK, `pebble.h`) -/

/-- A pixel coordinate, `GPoint` of the SDK. -/
structure GPoint where
  x : Int
  y : Int
deriving DecidableEq, Repr

/-- The `GSize` of the SDK. -/
structure GSize where
  w : Int
  h : Int
deriving DecidableEq, Repr

/-- The `GRect` of the SDK: an origin and a size. -/
structure GRect where
  origin : GPoint
  size : GSize
deriving DecidableEq, Repr

/-- The SDK constant `TRIG_MAX_RATIO`, `0xffff`. -/
def TRIG_MAX_RATIO : Int := 0xffff

/-- The SDK constant `TRIG_MAX_ANGLE`, `0x10000`: one full turn. -/
def TRIG_MAX_ANGLE : Int := 0x10000

/-- The result of an `int` operation: reduction into `-2^31 .. 2^31 - 1`. -/
def int32 (x : Int) : Int :=
  (x + 2147483648) % 4294967296 - 2147483648

/-- The SDK macro `DEG_TO_TRIGANGLE(angle)`, `((angle) * TRIG_MAX_ANGLE) / 360`
with the `int` product and the truncating division of C. -/
def DEG_TO_TRIGANGLE (degrees : Int) : Int :=
  Int.tdiv (int32 (degrees * TRIG_MAX_ANGLE)) 360

/-- Conversion of a C `double` to `int`: truncation toward zero. -/
def toInt {α : Type} [LinearOrderedField α] [FloorRing α] (x : α) : Int :=
  if 0 ≤ x then ⌊x⌋ else ⌈x⌉

/-- Storing an `int` into an `int16_t` field: reduction into `-32768 .. 32767`. -/
def int16 (x : Int) : Int :=
  (x + 32768) % 65536 - 32768

/-! ## Macros of `watch.h` -/

/-- Modelled from the spec: the macro `ROUND` of `watch.h`, which is not among
the sources.  The spec has it round to the nearest integer, a half going away
from zero. -/
def ROUND {α : Type} [LinearOrderedField α] [FloorRing α] (x : α) : Int :=
  if 0 ≤ x then ⌊x + 1 / 2⌋ else -⌊-x + 1 / 2⌋

/-- Modelled from the spec: the macro `MIN` of `watch.h`, which is not among
the sources: the smaller of its two arguments. -/
def MIN (a b : Int) : Int :=
  if a < b then a else b

/-! ## Geometry (`watch.c`, lines 37-46) -/

section Geometry

variable {α : Type} [LinearOrderedField α] [FloorRing α]

/-- The function `tick_angle_point`: the point at `radius` from `center` in the
direction `angle` (trig units, zero straight up, clockwise).  The locals `x`
and `y` are `int`; `GPoint(x, y)` stores them into 16-bit fields. -/
def tick_angle_point (sin_lookup cos_lookup : Int → α)
    (center : GPoint) (radius angle : Int) : GPoint :=
  let x := int32 (center.x + ROUND ((radius : α) * 1.0 * sin_lookup angle / ( TRIG_MAX_RATIO : α)))
  let y := int32 (center.y - ROUND ((radius : α) * 1.0 * cos_lookup angle / ( TRIG_MAX_RATIO : α)))
  ⟨int16 x, int16 y⟩

/-- The function `tick_point`: as `tick_angle_point`, the angle in whole degrees. -/
def tick_point (sin_lookup cos_lookup : Int → α)
    (center : GPoint) (radius degrees : Int) : GPoint :=
  let angle := DEG_TO_TRIGANGLE degrees
  tick_angle_point sin_lookup cos_lookup center radius angle

end Geometry

/-! ## The graphics context -/

/-- The two colours the watch face uses. -/
inductive GColor where
  | GColorBlack
  | GColorWhite
deriving DecidableEq, Repr

/-- One call on the graphics context. -/
inductive DrawOp where
  | set_stroke_color (c : GColor)
  | set_fill_color (c : GColor)
  | set_stroke_width (w : Int)
  | fill_rect (r : GRect)
  | draw_line (p0 p1 : GPoint)
  | draw_pixel (p : GPoint)
deriving DecidableEq, Repr

/-- The calls that put pixels on the display, as opposed to those that set a
colour or a stroke width. -/
def DrawOp.isMark : DrawOp → Bool
  | .fill_rect _ => true
  | .draw_line _ _ => true
  | .draw_pixel _ => true
  | _ => false

/-- Whether the call fills a rectangle. -/
def DrawOp.isRect : DrawOp → Bool
  | .fill_rect _ => true
  | _ => false

/-- Whether the call sets a single pixel. -/
def DrawOp.isPixel : DrawOp → Bool
  | .draw_pixel _ => true
  | _ => false

/-- The first end point of a line. -/
def DrawOp.origin? : DrawOp → Option GPoint
  | .draw_line p0 _ => some p0
  | _ => none

/-- The lines drawn, in order. -/
def lines (ops : List DrawOp) : List DrawOp :=
  ops.filter (fun op => op.origin?.isSome)

/-! ## Tick marks (`watch.c`, lines 48-73) -/

section Ticks

variable {α : Type} [LinearOrderedField α] [FloorRing α]

/-- The body of the loop of `draw_ticks` at index `i`.  The product `i * 360`
and the sums `radius + 1`, `radius - 1` are `int`; `GRect(...)` stores its
origin into 16-bit fields. -/
def draw_ticks_body (sin_lookup cos_lookup : Int → α) (center : GPoint)
    (radius num_ticks ticks_modulo thick : Int) (i : Int) : List DrawOp :=
  let p := tick_point sin_lookup cos_lookup center radius (Int.tdiv (int32 (i * 360)) num_ticks)
  if Int.tmod i ticks_modulo = 0 then
    if thick ≠ 0 then
      [.fill_rect ⟨⟨int16 (p.x - 1), int16 (p.y - 1)⟩, ⟨3, 3⟩⟩]
    else
      let p1 := tick_point sin_lookup cos_lookup center (int32 (radius + 1))
        (Int.tdiv (int32 (i * 360)) num_ticks)
      let p2 := tick_point sin_lookup cos_lookup center (int32 (radius - 1))
        (Int.tdiv (int32 (i * 360)) num_ticks)
      [.set_stroke_width 1, .draw_line p1 p2]
  else
    [.draw_pixel p]

/-- The function `draw_ticks`: `i` runs from `0` up to `num_ticks - 1`. -/
def draw_ticks (sin_lookup cos_lookup : Int → α) (center : GPoint)
    (radius num_ticks ticks_modulo thick : Int) : List DrawOp :=
  [.set_stroke_color .GColorWhite, .set_fill_color .GColorWhite] ++
    (List.range num_ticks.toNat).flatMap (fun i =>
      draw_ticks_body sin_lookup cos_lookup center radius num_ticks ticks_modulo thick (i : Int))

/-- The mark of index `i` among `count`, every `majorEvery`-th being major: a
3x3 square whose origin is the mark point moved by `(-1, -1)` and stored in 16
bits, or a radial segment, for a major mark, the single pixel at the mark point
otherwise. -/
def tick_mark (sin_lookup cos_lookup : Int → α) (center : GPoint) (radius : Int)
    (count majorEvery : Nat) (block : Bool) (i : Nat) : DrawOp :=
  let degrees : Int := ((i * 360 / count : Nat) : Int)
  let p := tick_point sin_lookup cos_lookup center radius degrees
  if i % majorEvery = 0 then
    if block then
      .fill_rect ⟨⟨int16 (p.x - 1), int16 (p.y - 1)⟩, ⟨3, 3⟩⟩
    else
      .draw_line (tick_point sin_lookup cos_lookup center (radius + 1) degrees)
        (tick_point sin_lookup cos_lookup center (radius - 1) degrees)
  else
    .draw_pixel p

end Ticks

/-! ## Settings, time values and the file-level variables -/

/-- The record `WatchSettings` of `watch.h`, with the five fields `watch.c` uses. -/
structure WatchSettings where
  show_date : Bool
  show_battery : Bool
  use_bold_font : Bool
  use_larger_font : Bool
  stopwatch_uses_big_second_hand : Bool
deriving DecidableEq, Repr

/-- The fields of `struct tm` that `canvas_update_proc` reads. -/
structure Tm where
  tm_sec : Int
  tm_min : Int
  tm_hour : Int
deriving DecidableEq, Repr

/-- The record `TimeWithMsec` of `watch.h`: whole seconds and milliseconds. -/
structure TimeWithMsec where
  sec : Int
  msec : Int
deriving DecidableEq, Repr

/-- The layout variables of `watch.c` (lines 16-33). -/
structure Layout where
  tick_radius : Int
  second_hand_length : Int
  minute_hand_length : Int
  hour_hand_length : Int
  window_bounds : GRect
  watch_bounds : GRect
  inner_bounds : GRect
  center : GPoint
  center1 : GPoint
  center2 : GPoint
  center3 : GPoint
  radius1 : Int
  radius2 : Int
  radius3 : Int
deriving DecidableEq, Repr

section Dials

variable {α : Type} [LinearOrderedField α] [FloorRing α]

/-- The function `ticks_update_proc`. -/
def ticks_update_proc (sin_lookup cos_lookup : Int → α) (L : Layout) : List DrawOp :=
  draw_ticks sin_lookup cos_lookup L.center L.tick_radius 60 5 1 ++
  draw_ticks sin_lookup cos_lookup L.center1 L.radius1 20 2 1 ++
  draw_ticks sin_lookup cos_lookup L.center2 L.radius2 60 5 0 ++
  draw_ticks sin_lookup cos_lookup L.center3 L.radius3 60 5 0

/-! ## The wall clock (`watch.c`, lines 75-106) -/

/-- The local `second_angle` of `canvas_update_proc` (line 79). -/
def second_angle (t : Tm) : Int :=
  ROUND ((TRIG_MAX_ANGLE : ℚ) / 60.0 * (t.tm_sec : ℚ))

/-- The local `minute_angle` of `canvas_update_proc` (line 80). -/
def minute_angle (t : Tm) : Int :=
  ROUND ((TRIG_MAX_ANGLE : ℚ) / 3600.0 * ((t.tm_min * 60 + t.tm_sec : Int) : ℚ))

/-- The local `hour_angle` of `canvas_update_proc` (line 81). -/
def hour_angle (t : Tm) : Int :=
  ROUND ((TRIG_MAX_ANGLE : ℚ) / 43200.0 *
    ((Int.tmod t.tm_hour 12 * 3600 + t.tm_min * 60 + t.tm_sec : Int) : ℚ))

/-- The function `canvas_update_proc`, at the local time `t`. -/
def canvas_update_proc (sin_lookup cos_lookup : Int → α) (settings : WatchSettings)
    (L : Layout) (t : Tm) : List DrawOp :=
  let second :=
    if settings.stopwatch_uses_big_second_hand then
      tick_angle_point sin_lookup cos_lookup L.center2 (L.radius2 - 4) (second_angle t)
    else
      tick_angle_point sin_lookup cos_lookup L.center L.second_hand_length (second_angle t)
  let minute := tick_angle_point sin_lookup cos_lookup L.center L.minute_hand_length (minute_angle t)
  let hour := tick_angle_point sin_lookup cos_lookup L.center L.hour_hand_length (hour_angle t)
  [.set_stroke_color .GColorWhite, .set_fill_color .GColorWhite, .set_stroke_width 1] ++
  (if settings.stopwatch_uses_big_second_hand then
    [DrawOp.draw_line L.center2 second]
  else
    [DrawOp.draw_line L.center second]) ++
  [.set_stroke_width 3, .draw_line L.center minute, .draw_line L.center hour]

/-! ## The stopwatch dials (`watch.c`, lines 117-143) -/

/-- The degrees of the tenths hand (line 125): the `double` `360.0 * t.msec / 1000`
converted to the `int` parameter of `tick_point`. -/
def msec_degrees (t : TimeWithMsec) : Int :=
  toInt ((360.0 : ℚ) * (t.msec : ℚ) / 1000)

/-- The degrees of the seconds hand (lines 127, 129). -/
def second_degrees (t : TimeWithMsec) : Int :=
  Int.tmod t.sec 60 * 6

/-- The degrees of the minute-style hand (line 131). -/
def minute_degrees (t : TimeWithMsec) : Int :=
  ROUND (((Int.tmod (Int.tdiv t.sec 60) 60 : Int) : ℚ) * 6.0)

/-- The degrees of the hour-style hand (line 132). -/
def hour_degrees (t : TimeWithMsec) : Int :=
  ROUND (((Int.tmod (Int.tdiv t.sec 60) 720 : Int) : ℚ) * 0.5)

/-- The function `stopwatch_update_proc`, `t` being the value of `stopwatch_time()`. -/
def stopwatch_update_proc (sin_lookup cos_lookup : Int → α) (settings : WatchSettings)
    (L : Layout) (t : TimeWithMsec) : List DrawOp :=
  let pt_msec := tick_point sin_lookup cos_lookup L.center1 (L.radius1 - 4) (msec_degrees t)
  let pt_second :=
    if settings.stopwatch_uses_big_second_hand then
      tick_point sin_lookup cos_lookup L.center (L.second_hand_length - 4) (second_degrees t)
    else
      tick_point sin_lookup cos_lookup L.center2 (L.radius2 - 4) (second_degrees t)
  let pt_minute := tick_point sin_lookup cos_lookup L.center3 (L.radius3 - 4) (minute_degrees t)
  let pt_hour := tick_point sin_lookup cos_lookup L.center3
    (ROUND (((L.radius3 : ℚ) - 4.0) * 2.0 / 3.0)) (hour_degrees t)
  [.set_stroke_color .GColorWhite, .set_fill_color .GColorWhite,
    .set_stroke_width 1, .draw_line L.center1 pt_msec] ++
  (if settings.stopwatch_uses_big_second_hand then
    [DrawOp.draw_line L.center pt_second]
  else
    [DrawOp.draw_line L.center2 pt_second]) ++
  [.draw_line L.center3 pt_minute, .draw_line L.center3 pt_hour]

end Dials

/-! ## The stopwatch (`stopwatch_*` of `watch.h`) -/

/-- Modelled from the spec: the state of the stopwatch, whose code is not among
the sources: time banked from finished runs, the running flag, and the instant
the current run started. -/
structure StopwatchState where
  accumulated_ms : Int
  running : Bool
  started_at : Int
deriving DecidableEq, Repr

/-- Modelled from the spec: a new stopwatch, stopped with nothing accumulated
(the stopwatch code is not among the sources). -/
def StopwatchState.initial : StopwatchState :=
  ⟨0, false, 0⟩

/-- Modelled from the spec: the stopwatch with its stable storage (the
stopwatch code is not among the sources).  The spec has the record written to
storage on every mutation. -/
structure Stopwatch where
  state : StopwatchState
  stored : Option StopwatchState
deriving DecidableEq, Repr

/-- Modelled from the spec: `stopwatch_start_stop`, not among the sources.  When
stopped it starts at `now`, persists and returns true; when running it folds
the run into `accumulated_ms`, stops, persists and returns false. -/
def stopwatch_start_stop (now : Int) (w : Stopwatch) : Bool × Stopwatch :=
  if w.state.running then
    let st : StopwatchState :=
      { w.state with
        accumulated_ms := w.state.accumulated_ms + (now - w.state.started_at)
        running := false }
    (false, ⟨st, some st⟩)
  else
    let st : StopwatchState := { w.state with running := true, started_at := now }
    (true, ⟨st, some st⟩)

/-- Modelled from the spec: `stopwatch_lap_reset`, not among the sources.  When
running it changes nothing and returns true; when stopped it resets
`accumulated_ms` to zero, persists and returns false. -/
def stopwatch_lap_reset (w : Stopwatch) : Bool × Stopwatch :=
  if w.state.running then
    (true, w)
  else
    let st : StopwatchState := { w.state with accumulated_ms := 0 }
    (false, ⟨st, some st⟩)

/-- Modelled from the spec: `stopwatch_load_persist`, not among the sources.  It
restores the stored record (the initial one when nothing is stored) and returns
whether the stopwatch was running. -/
def stopwatch_load_persist (w : Stopwatch) : Bool × Stopwatch :=
  let st := w.stored.getD StopwatchState.initial
  (st.running, { w with state := st })

/-- Modelled from the spec: `stopwatch_time`, not among the sources: the elapsed
milliseconds split into whole seconds and the remaining `0 .. 999`. -/
def stopwatch_time (now : Int) (w : Stopwatch) : TimeWithMsec :=
  let elapsed :=
    if w.state.running then w.state.accumulated_ms + (now - w.state.started_at)
    else w.state.accumulated_ms
  ⟨elapsed / 1000, elapsed % 1000⟩

/-! ## Windows, timers and the application state -/

/-- A window of the platform: its handle and whether a click configuration
provider has been set on it. -/
structure Window where
  handle : Nat
  click_config_provider : Bool
deriving DecidableEq, Repr

/-- A configuration message: for each key, the value `dict_find` yields, if any. -/
structure Message where
  ShowDate : Option Int
  ShowBattery : Option Int
  UseBoldFont : Option Int
  UseLargerFont : Option Int
  StopwatchUsesBigSecondHand : Option Int
deriving DecidableEq, Repr

/-- The file-level variables of `watch.c` together with the platform state they
refer to.  Layers, fonts, text and the battery and tick services carry none of
the state below and are left out. -/
structure App where
  /-- The variable `s_main_window`. -/
  s_main_window : Nat
  /-- The layout variables. -/
  layout : Layout
  /-- The variable `settings`. -/
  settings : WatchSettings
  /-- The variable `timer_handle`, `none` for `NULL`. -/
  timer_handle : Option Nat
  /-- The variable `minute_when_last_updated`. -/
  minute_when_last_updated : Int
  /-- Platform: the windows that exist. -/
  windows : List Window
  /-- Platform: the window stack, top first, by handle. -/
  window_stack : List Nat
  /-- Platform: the number of windows created so far, the next handle. -/
  windows_created : Nat
  /-- Platform: the timers registered, not yet fired and not cancelled. -/
  pending_timers : List Nat
  /-- Platform: the number of timers registered so far, the next handle. -/
  timers_registered : Nat
  /-- Platform: the record stored under `SETTINGS_KEY`. -/
  persist_settings : Option WatchSettings
  /-- The stopwatch and its stored record. -/
  stopwatch : Stopwatch
  /-- Platform: the size of the root layer of a window. -/
  display : GSize
deriving DecidableEq, Repr

/-- The SDK call `app_timer_register`: a fresh pending timer; its handle is
stored in `timer_handle`, as every call site of `watch.c` does. -/
def app_timer_register (s : App) : App :=
  { s with
    timer_handle := some s.timers_registered
    pending_timers := s.pending_timers ++ [s.timers_registered]
    timers_registered := s.timers_registered + 1 }

/-- The SDK call `app_timer_cancel`: the timer is no longer pending. -/
def app_timer_cancel (handle : Nat) (s : App) : App :=
  { s with pending_timers := s.pending_timers.filter (fun t => t ≠ handle) }

/-- The SDK call `grect_center_point`; the result is stored in 16-bit fields. -/
def grect_center_point (r : GRect) : GPoint :=
  ⟨int16 (r.origin.x + Int.tdiv r.size.w 2), int16 (r.origin.y + Int.tdiv r.size.h 2)⟩

/-- The settings `main_window_load` starts from (lines 211-215). -/
def default_settings : WatchSettings :=
  ⟨false, false, false, false, true⟩

/-- The state the program starts in: zero-initialised variables, no window and
no timer. -/
def App.start (display : GSize) (persist_settings : Option WatchSettings)
    (stored : Option StopwatchState) : App where
  s_main_window := 0
  layout := ⟨0, 0, 0, 0, ⟨⟨0, 0⟩, ⟨0, 0⟩⟩, ⟨⟨0, 0⟩, ⟨0, 0⟩⟩, ⟨⟨0, 0⟩, ⟨0, 0⟩⟩,
    ⟨0, 0⟩, ⟨0, 0⟩, ⟨0, 0⟩, ⟨0, 0⟩, 0, 0, 0⟩
  settings := ⟨false, false, false, false, false⟩
  timer_handle := none
  minute_when_last_updated := 0
  windows := []
  window_stack := []
  windows_created := 0
  pending_timers := []
  timers_registered := 0
  persist_settings := persist_settings
  stopwatch := ⟨StopwatchState.initial, stored⟩
  display := display

/-! ## Window life cycle, buttons and messages (`watch.c`, lines 152-381) -/

section Lifecycle

variable {α : Type} [LinearOrderedField α] [FloorRing α]

/-- The layout part of `main_window_load` (lines 219-251) for the window bounds
and the settings in force. -/
def main_window_layout (sin_lookup cos_lookup : Int → α) (window_bounds : GRect)
    (settings : WatchSettings) : Layout :=
  let watch_bounds : GRect :=
    if settings.show_date || settings.show_battery then
      if settings.use_larger_font then
        ⟨⟨window_bounds.origin.x, int16 (window_bounds.origin.y + 18)⟩,
          ⟨window_bounds.size.w, int16 (window_bounds.size.h - 18)⟩⟩
      else
        ⟨⟨window_bounds.origin.x, int16 (window_bounds.origin.y + 14)⟩,
          ⟨window_bounds.size.w, int16 (window_bounds.size.h - 14)⟩⟩
    else
      window_bounds
  let tick_radius := Int.tdiv (MIN watch_bounds.size.h watch_bounds.size.w) 2 - 2
  let second_hand_length := tick_radius - 3
  let minute_hand_length := ROUND ((tick_radius : ℚ) * 0.8)
  let hour_hand_length := ROUND ((tick_radius : ℚ) * 0.5)
  let inner_bounds : GRect := ⟨⟨0, 0⟩, watch_bounds.size⟩
  let center := grect_center_point inner_bounds
  let center1 := tick_point sin_lookup cos_lookup center (ROUND ((tick_radius : ℚ) * 0.6)) 0
  let center2 := tick_point sin_lookup cos_lookup center (ROUND ((tick_radius : ℚ) * 0.5)) 285
  let center3 := tick_point sin_lookup cos_lookup center (ROUND ((tick_radius : ℚ) * 0.5)) 180
  { tick_radius := tick_radius
    second_hand_length := second_hand_length
    minute_hand_length := minute_hand_length
    hour_hand_length := hour_hand_length
    window_bounds := window_bounds
    watch_bounds := watch_bounds
    inner_bounds := inner_bounds
    center := center
    center1 := center1
    center2 := center2
    center3 := center3
    radius1 := 20
    radius2 := 20
    radius3 := 30 }

/-- The function `main_window_load`.  The settings are the defaults overwritten
by the stored record when there is one; the bounds of the root layer are the
display at the origin; the bounds of a layer are its frame moved to the origin. -/
def main_window_load (sin_lookup cos_lookup : Int → α) (s : App) : App :=
  let settings := s.persist_settings.getD default_settings
  let window_bounds : GRect := ⟨⟨0, 0⟩, s.display⟩
  let s1 : App :=
    { s with
      settings := settings
      layout := main_window_layout sin_lookup cos_lookup window_bounds settings
      minute_when_last_updated := -1 }
  let r := stopwatch_load_persist s1.stopwatch
  let s2 : App := { s1 with stopwatch := r.2 }
  if r.1 then app_timer_register s2 else s2

/-- The function `main_window_unload`. -/
def main_window_unload (s : App) : App :=
  { s with minute_when_last_updated := -1 }

/-- The function `update_stopwatch`, the callback of the stopwatch timer. -/
def update_stopwatch (s : App) : App :=
  app_timer_register s

/-- The platform fires the pending timer `t`: it stops being pending and its
callback runs. -/
def timer_fired (t : Nat) (s : App) : App :=
  if t ∈ s.pending_timers then
    update_stopwatch { s with pending_timers := s.pending_timers.filter (fun u => u ≠ t) }
  else
    s

/-- The function `up_single_click_handler`, pressed at the instant `now`. -/
def up_single_click_handler (now : Int) (s : App) : App :=
  let r := stopwatch_start_stop now s.stopwatch
  let s1 : App := { s with stopwatch := r.2 }
  if r.1 then
    let s2 := match s1.timer_handle with
      | some h => app_timer_cancel h s1
      | none => s1
    app_timer_register s2
  else
    let s2 := match s1.timer_handle with
      | some h => app_timer_cancel h s1
      | none => s1
    { s2 with timer_handle := none }

/-- The function `down_single_click_handler`. -/
def down_single_click_handler (s : App) : App :=
  let r := stopwatch_lap_reset s.stopwatch
  { s with stopwatch := r.2 }

/-- The function `main_window_create`: a new window without a click
configuration provider is created and pushed, which runs its load handler. -/
def main_window_create (sin_lookup cos_lookup : Int → α) (s : App) : App :=
  let h := s.windows_created
  let s1 : App :=
    { s with
      s_main_window := h
      windows := ⟨h, false⟩ :: s.windows
      windows_created := h + 1 }
  let s2 : App := { s1 with window_stack := h :: s1.window_stack }
  main_window_load sin_lookup cos_lookup s2

/-- The function `main_window_destroy`: the top window is popped, which runs
its unload handler, and `s_main_window` is destroyed. -/
def main_window_destroy (s : App) : App :=
  let s1 : App := { s with window_stack := s.window_stack.tail }
  let s2 := main_window_unload s1
  { s2 with windows := s2.windows.filter (fun w => w.handle ≠ s2.s_main_window) }

/-- The SDK call `window_set_click_config_provider` on the window `handle`. -/
def window_set_click_config_provider (handle : Nat) (s : App) : App :=
  { s with
    windows := s.windows.map (fun w =>
      if w.handle = handle then { w with click_config_provider := true } else w) }

/-- The function `message_handler`. -/
def message_handler (sin_lookup cos_lookup : Int → α) (received : Message) (s : App) : App :=
  let st0 := s.settings
  let st1 := match received.ShowDate with
    | some v => { st0 with show_date := decide (v ≠ 0) }
    | none => st0
  let st2 := match received.ShowBattery with
    | some v => { st1 with show_battery := decide (v ≠ 0) }
    | none => st1
  let st3 := match received.UseBoldFont with
    | some v => { st2 with use_bold_font := decide (v ≠ 0) }
    | none => st2
  let st4 := match received.UseLargerFont with
    | some v => { st3 with use_larger_font := decide (v ≠ 0) }
    | none => st3
  let st5 := match received.StopwatchUsesBigSecondHand with
    | some v => { st4 with stopwatch_uses_big_second_hand := decide (v ≠ 0) }
    | none => st4
  let refresh_window :=
    received.ShowDate.isSome || received.ShowBattery.isSome || received.UseBoldFont.isSome ||
      received.UseLargerFont.isSome || received.StopwatchUsesBigSecondHand.isSome
  let s1 : App := { s with settings := st5, persist_settings := some st5 }
  if refresh_window then
    main_window_create sin_lookup cos_lookup (main_window_destroy s1)
  else
    s1

/-- The function `init`. -/
def init (sin_lookup cos_lookup : Int → α) (s : App) : App :=
  let s1 := main_window_create sin_lookup cos_lookup s
  window_set_click_config_provider s1.s_main_window s1

end Lifecycle

/-- Whether the window on top of the stack has a click configuration provider. -/
def top_has_click_config_provider (s : App) : Bool :=
  match s.window_stack with
  | [] => false
  | h :: _ =>
    match s.windows.find? (fun w => w.handle = h) with
    | some w => w.click_config_provider
    | none => false

/-- An up press: it reaches `up_single_click_handler` when the top window has
the click configuration provider. -/
def press_up (now : Int) (s : App) : App :=
  if top_has_click_config_provider s then up_single_click_handler now s else s

/-- A down press: it reaches `down_single_click_handler` when the top window
has the click configuration provider. -/
def press_down (s : App) : App :=
  if top_has_click_config_provider s then down_single_click_handler s else s

/-- The events of the stopwatch timer protocol. -/
inductive Event where
  | load
  | up (now : Int)
  | fire (t : Nat)
deriving DecidableEq, Repr

section Events

variable {α : Type} [LinearOrderedField α] [FloorRing α]

/-- One event handled. -/
def step (sin_lookup cos_lookup : Int → α) (s : App) : Event → App
  | .load => main_window_load sin_lookup cos_lookup s
  | .up now => up_single_click_handler now s
  | .fire t => timer_fired t s

/-- A sequence of events handled in order. -/
def run (sin_lookup cos_lookup : Int → α) (s : App) (events : List Event) : App :=
  events.foldl (step sin_lookup cos_lookup) s

end Events

/-- A sample sine table for concrete runs: the sine scaled by `TRIG_MAX_RATIO`
and rounded at the three angles the layout uses (`0`, half a turn, and
`DEG_TO_TRIGANGLE(285) = 51882`), zero at every other angle. -/
def sample_sin_lookup (angle : Int) : ℚ :=
  if angle = 51882 then -63302 else 0

/-- A sample cosine table for concrete runs, as `sample_sin_lookup`. -/
def sample_cos_lookup (angle : Int) : ℚ :=
  if angle = 0 then 65535 else if angle = 32768 then -65535
  else if angle = 51882 then 16962 else 0

/-! ## Rounding lemmas -/

section Rounding

variable {α : Type} [LinearOrderedField α] [FloorRing α]

theorem ROUND_intCast (n : Int) : ROUND (n : α) = n := by
  unfold ROUND
  split_ifs with h
  · rw [Int.floor_eq_iff]
    constructor <;> norm_num
  · have : ⌊-(n : α) + 1 / 2⌋ = -n := by
      rw [Int.floor_eq_iff]
      push_cast
      constructor <;> norm_num
    rw [this]; simp

theorem ROUND_sub_le (x : α) : (ROUND x : α) - x ≤ 1 / 2 := by
  unfold ROUND
  split_ifs with h
  · have := Int.floor_le (x + 1 / 2)
    linarith
  · have := Int.lt_floor_add_one (-x + 1 / 2)
    push_cast
    linarith

theorem sub_ROUND_le (x : α) : x - (ROUND x : α) ≤ 1 / 2 := by
  unfold ROUND
  split_ifs with h
  · have := Int.lt_floor_add_one (x + 1 / 2)
    linarith
  · have := Int.floor_le (-x + 1 / 2)
    push_cast
    linarith

theorem abs_ROUND_sub_le (x : α) : |(ROUND x : α) - x| ≤ 1 / 2 := by
  rw [abs_le]
  constructor
  · have := sub_ROUND_le x
    linarith
  · exact ROUND_sub_le x

end Rounding

section RoundingEval

variable (α : Type) [LinearOrderedField α] [FloorRing α]

theorem floor_intCast_div (a b : Int) (hb : 0 < b) : ⌊(a : α) / (b : α)⌋ = a / b := by
  have hbα : (0 : α) < (b : α) := by exact_mod_cast hb
  rw [Int.floor_eq_iff]
  constructor
  · rw [le_div_iff₀ hbα]
    have := Int.ediv_mul_le a (ne_of_gt hb)
    exact_mod_cast this
  · rw [div_lt_iff₀ hbα]
    have := Int.lt_ediv_add_one_mul_self a hb
    exact_mod_cast this

theorem ROUND_intCast_div (a b : Int) (hb : 0 < b) :
    ROUND ((a : α) / (b : α)) =
      if 0 ≤ a then (2 * a + b) / (2 * b) else -((-(2 * a) + b) / (2 * b)) := by
  have hbα : (0 : α) < (b : α) := by exact_mod_cast hb
  have h2b : (0 : Int) < 2 * b := by omega
  unfold ROUND
  by_cases ha : 0 ≤ a
  · have haα : (0 : α) ≤ (a : α) / (b : α) := div_nonneg (by exact_mod_cast ha) hbα.le
    rw [if_pos haα, if_pos ha, ← floor_intCast_div α (2 * a + b) (2 * b) h2b]
    congr 1
    push_cast
    field_simp
    ring
  · have haα : ¬ (0 : α) ≤ (a : α) / (b : α) := by
      rw [not_le]
      exact div_neg_of_neg_of_pos (by exact_mod_cast (not_le.mp ha)) hbα
    rw [if_neg haα, if_neg ha, ← floor_intCast_div α (-(2 * a) + b) (2 * b) h2b]
    congr 2
    push_cast
    field_simp
    ring

end RoundingEval


/-! ## Integer ranges -/

theorem int16_of_small (x : Int) (h0 : -32768 ≤ x) (h1 : x ≤ 32767) : int16 x = x := by
  unfold int16
  omega

theorem int32_of_small (x : Int) (h0 : -2147483648 ≤ x) (h1 : x ≤ 2147483647) :
    int32 x = x := by
  unfold int32
  omega

theorem int16_int32 (x : Int) : int16 (int32 x) = int16 x := by
  unfold int16 int32
  omega

theorem int16_range (x : Int) : -32768 ≤ int16 x ∧ int16 x ≤ 32767 := by
  unfold int16
  omega

/-! ## Geometry: angle zero -/

section GeometryFacts

variable {α : Type} [LinearOrderedField α] [FloorRing α]

theorem tick_point_range (sin_lookup cos_lookup : Int → α) (center : GPoint) (r d : Int) :
    (-32768 ≤ (tick_point sin_lookup cos_lookup center r d).x ∧
      (tick_point sin_lookup cos_lookup center r d).x ≤ 32767) ∧
    (-32768 ≤ (tick_point sin_lookup cos_lookup center r d).y ∧
      (tick_point sin_lookup cos_lookup center r d).y ≤ 32767) := by
  simp only [tick_point, tick_angle_point]
  exact ⟨int16_range _, int16_range _⟩

theorem tick_angle_point_up (sin_lookup cos_lookup : Int → α) (center : GPoint) (r a : Int)
    (hs : sin_lookup a = 0) (hc : cos_lookup a = ( TRIG_MAX_RATIO : α)) :
    tick_angle_point sin_lookup cos_lookup center r a =
      ⟨int16 center.x, int16 (center.y - r)⟩ := by
  have hR : (( TRIG_MAX_RATIO : Int) : α) ≠ 0 := by
    norm_num [ TRIG_MAX_RATIO]
  have h1 : (r : α) * 1.0 * sin_lookup a / ( TRIG_MAX_RATIO : α) = ((0 : Int) : α) := by
    rw [hs]; simp
  have h2 : (r : α) * 1.0 * cos_lookup a / ( TRIG_MAX_RATIO : α) = (r : α) := by
    rw [hc]; field_simp; norm_num
  simp only [tick_angle_point, h1, h2, ROUND_intCast, add_zero, int16_int32]

/-- C2, as the code has it: with `sin_lookup(0) = 0` and
`cos_lookup(0) = TRIG_MAX_RATIO`, for every centre `(cx, cy)` with 16-bit
coordinates and every radius `r ≥ 0` with `cy - r ≥ -32768`, both
`tick_point(center, r, 0)` and `tick_angle_point(center, r, 0)` are exactly the
point `(cx, cy - r)`, straight up, and for `r = 0` this is the centre itself.
Without the bound on `cy - r` the result is `(cx, cy - r)` stored in 16 bits. -/
theorem tick_point_zero_is_up (sin_lookup cos_lookup : Int → α) (center : GPoint) (r : Int)
    (hx : -32768 ≤ center.x ∧ center.x ≤ 32767) (hy : -32768 ≤ center.y ∧ center.y ≤ 32767)
    (hr : 0 ≤ r) (hfit : -32768 ≤ center.y - r)
    (hs : sin_lookup 0 = 0) (hc : cos_lookup 0 = ( TRIG_MAX_RATIO : α)) :
    tick_point sin_lookup cos_lookup center r 0 = ⟨center.x, center.y - r⟩ ∧
    tick_angle_point sin_lookup cos_lookup center r 0 = ⟨center.x, center.y - r⟩ ∧
    tick_point sin_lookup cos_lookup center 0 0 = center ∧
    tick_angle_point sin_lookup cos_lookup center 0 0 = center ∧
    (∀ q : Int, tick_point sin_lookup cos_lookup center q 0 =
      ⟨center.x, int16 (center.y - q)⟩) := by
  have h0 : DEG_TO_TRIGANGLE 0 = 0 := by decide
  have ex : int16 center.x = center.x := int16_of_small _ hx.1 hx.2
  have ey : int16 (center.y - r) = center.y - r := int16_of_small _ hfit (by omega)
  have ez : int16 (center.y - 0) = center.y := by
    rw [sub_zero]; exact int16_of_small _ hy.1 hy.2
  have hz := tick_angle_point_up sin_lookup cos_lookup center 0 0 hs hc
  have hp := tick_angle_point_up sin_lookup cos_lookup center r 0 hs hc
  rw [ex, ey] at hp
  rw [ex, ez] at hz
  refine ⟨?_, hp, ?_, hz, ?_⟩
  · simp only [tick_point, h0]; exact hp
  · simp only [tick_point, h0]; exact hz
  · intro q
    simp only [tick_point, h0]
    rw [tick_angle_point_up sin_lookup cos_lookup center q 0 hs hc, ex]

end GeometryFacts

theorem tick_point_zero_is_up_witness :
    ((-32768 : Int) ≤ 72 ∧ (72 : Int) ≤ 32767) ∧ ((-32768 : Int) ≤ 84 ∧ (84 : Int) ≤ 32767) ∧
    (0 : Int) ≤ 70 ∧ (-32768 : Int) ≤ 84 - 70 ∧
    sample_sin_lookup 0 = 0 ∧ sample_cos_lookup 0 = ( TRIG_MAX_RATIO : ℚ) ∧
    tick_point sample_sin_lookup sample_cos_lookup ⟨72, 84⟩ 70 0 = ⟨72, 84 - 70⟩ :=
  ⟨by decide, by decide, by decide, by decide,
    by simp [sample_sin_lookup], by norm_num [sample_cos_lookup, TRIG_MAX_RATIO],
    (tick_point_zero_is_up sample_sin_lookup sample_cos_lookup ⟨72, 84⟩ 70
      (by decide) (by decide) (by decide) (by decide)
      (by simp [sample_sin_lookup]) (by norm_num [sample_cos_lookup, TRIG_MAX_RATIO])).1⟩

/-- C2 as stated fails: at the centre `(0, -32768)` with radius 1 the claim
gives `(0, -32769)`, which no `GPoint` holds; `tick_point` and
`tick_angle_point` return `(0, 32767)`. -/
theorem tick_point_zero_wraps :
    sample_sin_lookup 0 = 0 ∧ sample_cos_lookup 0 = ( TRIG_MAX_RATIO : ℚ) ∧
    tick_point sample_sin_lookup sample_cos_lookup ⟨0, -32768⟩ 1 0 = ⟨0, 32767⟩ ∧
    tick_angle_point sample_sin_lookup sample_cos_lookup ⟨0, -32768⟩ 1 0 = ⟨0, 32767⟩ ∧
    tick_point sample_sin_lookup sample_cos_lookup ⟨0, -32768⟩ 1 0 ≠ ⟨0, -32768 - 1⟩ := by
  have hs : sample_sin_lookup 0 = 0 := by simp [sample_sin_lookup]
  have hc : sample_cos_lookup 0 = ( TRIG_MAX_RATIO : ℚ) := by
    norm_num [sample_cos_lookup, TRIG_MAX_RATIO]
  have h0 : DEG_TO_TRIGANGLE 0 = 0 := by decide
  have ha : tick_angle_point sample_sin_lookup sample_cos_lookup ⟨0, -32768⟩ 1 0 = ⟨0, 32767⟩ := by
    rw [tick_angle_point_up sample_sin_lookup sample_cos_lookup ⟨0, -32768⟩ 1 0 hs hc]
    decide
  have hp : tick_point sample_sin_lookup sample_cos_lookup ⟨0, -32768⟩ 1 0 = ⟨0, 32767⟩ := by
    simp only [tick_point, h0]; exact ha
  refine ⟨hs, hc, hp, ha, ?_⟩
  rw [hp]; decide

/-! ## The wall-clock hand angles -/

theorem lines_canvas_update_proc {α : Type} [LinearOrderedField α] [FloorRing α]
    (sin_lookup cos_lookup : Int → α) (settings : WatchSettings) (L : Layout) (t : Tm) :
    lines (canvas_update_proc sin_lookup cos_lookup settings L t) =
      [ (if settings.stopwatch_uses_big_second_hand then
          DrawOp.draw_line L.center2
            (tick_angle_point sin_lookup cos_lookup L.center2 (L.radius2 - 4) (second_angle t))
        else
          DrawOp.draw_line L.center
            (tick_angle_point sin_lookup cos_lookup L.center L.second_hand_length (second_angle t))),
        DrawOp.draw_line L.center
          (tick_angle_point sin_lookup cos_lookup L.center L.minute_hand_length (minute_angle t)),
        DrawOp.draw_line L.center
          (tick_angle_point sin_lookup cos_lookup L.center L.hour_hand_length (hour_angle t)) ] := by
  cases h : settings.stopwatch_uses_big_second_hand <;>
    simp [lines, canvas_update_proc, h, DrawOp.origin?, List.filter]

theorem angle_in_turn (a : Int) (x : ℚ) (h : |(a : ℚ) - x| ≤ 1 / 2) (h0 : 0 ≤ x)
    (h1 : x ≤ 65535) : 0 ≤ a ∧ a < TRIG_MAX_ANGLE := by
  rw [abs_le] at h
  constructor
  · have : (-1 : ℚ) < (a : ℚ) := by linarith [h.1]
    have : (-1 : Int) < a := by exact_mod_cast this
    omega
  · have : (a : ℚ) < ((65536 : Int) : ℚ) := by push_cast; linarith [h.2]
    have : a < 65536 := by exact_mod_cast this
    simpa [TRIG_MAX_ANGLE] using this

/-- C4: for every clock time with hour in `0..23`, minute and second in `0..59`,
the second, minute and hour angles of `canvas_update_proc` are the integers
nearest to `TRIG_MAX_ANGLE` times `s/60`, `(60m + s)/3600` and
`((h mod 12)*3600 + 60m + s)/43200`, each within one full turn
`0 .. TRIG_MAX_ANGLE - 1`, and the three hands are drawn at these angles; at
03:00:00 the hour angle is exactly `TRIG_MAX_ANGLE/4` and the minute
and second angles are exactly 0. -/
theorem canvas_update_proc_angles {α : Type} [LinearOrderedField α] [FloorRing α]
    (sin_lookup cos_lookup : Int → α) (settings : WatchSettings) (L : Layout) (t : Tm)
    (hh : 0 ≤ t.tm_hour ∧ t.tm_hour ≤ 23) (hm : 0 ≤ t.tm_min ∧ t.tm_min ≤ 59)
    (hs : 0 ≤ t.tm_sec ∧ t.tm_sec ≤ 59) :
    |(second_angle t : ℚ) - (TRIG_MAX_ANGLE : ℚ) * ((t.tm_sec : ℚ) / 60)| ≤ 1 / 2 ∧
    |(minute_angle t : ℚ) -
        (TRIG_MAX_ANGLE : ℚ) * ((60 * (t.tm_min : ℚ) + (t.tm_sec : ℚ)) / 3600)| ≤ 1 / 2 ∧
    |(hour_angle t : ℚ) -
        (TRIG_MAX_ANGLE : ℚ) *
          ((((t.tm_hour % 12 : Int) : ℚ) * 3600 + 60 * (t.tm_min : ℚ) + (t.tm_sec : ℚ)) / 43200)|
      ≤ 1 / 2 ∧
    (0 ≤ second_angle t ∧ second_angle t < TRIG_MAX_ANGLE) ∧
    (0 ≤ minute_angle t ∧ minute_angle t < TRIG_MAX_ANGLE) ∧
    (0 ≤ hour_angle t ∧ hour_angle t < TRIG_MAX_ANGLE) ∧
    (lines (canvas_update_proc sin_lookup cos_lookup settings L t)).map
        (fun op => match op with
          | .draw_line _ p1 => some p1
          | _ => none) =
      [ some (tick_angle_point sin_lookup cos_lookup
          (if settings.stopwatch_uses_big_second_hand then L.center2 else L.center)
          (if settings.stopwatch_uses_big_second_hand then L.radius2 - 4 else L.second_hand_length)
          (second_angle t)),
        some (tick_angle_point sin_lookup cos_lookup L.center L.minute_hand_length (minute_angle t)),
        some (tick_angle_point sin_lookup cos_lookup L.center L.hour_hand_length (hour_angle t)) ] ∧
    hour_angle ⟨0, 0, 3⟩ = TRIG_MAX_ANGLE / 4 ∧
    minute_angle ⟨0, 0, 3⟩ = 0 ∧
    second_angle ⟨0, 0, 3⟩ = 0 := by
  have hmod : Int.tmod t.tm_hour 12 = t.tm_hour % 12 :=
    Int.tmod_eq_emod hh.1 (by decide)
  obtain ⟨hh0, hh1⟩ := hh
  obtain ⟨hm0, hm1⟩ := hm
  obtain ⟨hs0, hs1⟩ := hs
  have hh2 : 0 ≤ t.tm_hour % 12 ∧ t.tm_hour % 12 ≤ 11 := by omega
  have qs0 : (0 : ℚ) ≤ (t.tm_sec : ℚ) := by exact_mod_cast hs0
  have qs1 : (t.tm_sec : ℚ) ≤ 59 := by exact_mod_cast hs1
  have qm0 : (0 : ℚ) ≤ (t.tm_min : ℚ) := by exact_mod_cast hm0
  have qm1 : (t.tm_min : ℚ) ≤ 59 := by exact_mod_cast hm1
  have qh0 : (0 : ℚ) ≤ ((t.tm_hour % 12 : Int) : ℚ) := by exact_mod_cast hh2.1
  have qh1 : ((t.tm_hour % 12 : Int) : ℚ) ≤ 11 := by exact_mod_cast hh2.2
  have hT : (TRIG_MAX_ANGLE : ℚ) = 65536 := by norm_num [TRIG_MAX_ANGLE]
  have A : |(second_angle t : ℚ) - (TRIG_MAX_ANGLE : ℚ) * ((t.tm_sec : ℚ) / 60)| ≤ 1 / 2 := by
    have := abs_ROUND_sub_le ((TRIG_MAX_ANGLE : ℚ) / 60.0 * (t.tm_sec : ℚ))
    have e : (TRIG_MAX_ANGLE : ℚ) * ((t.tm_sec : ℚ) / 60)
        = (TRIG_MAX_ANGLE : ℚ) / 60.0 * (t.tm_sec : ℚ) := by
      norm_num; ring
    rw [second_angle, e]; exact this
  have B : |(minute_angle t : ℚ) -
      (TRIG_MAX_ANGLE : ℚ) * ((60 * (t.tm_min : ℚ) + (t.tm_sec : ℚ)) / 3600)| ≤ 1 / 2 := by
    have := abs_ROUND_sub_le
      ((TRIG_MAX_ANGLE : ℚ) / 3600.0 * ((t.tm_min * 60 + t.tm_sec : Int) : ℚ))
    have e : (TRIG_MAX_ANGLE : ℚ) * ((60 * (t.tm_min : ℚ) + (t.tm_sec : ℚ)) / 3600)
        = (TRIG_MAX_ANGLE : ℚ) / 3600.0 * ((t.tm_min * 60 + t.tm_sec : Int) : ℚ) := by
      push_cast; norm_num; ring
    rw [minute_angle, e]; exact this
  have C : |(hour_angle t : ℚ) - (TRIG_MAX_ANGLE : ℚ) *
      ((((t.tm_hour % 12 : Int) : ℚ) * 3600 + 60 * (t.tm_min : ℚ) + (t.tm_sec : ℚ)) / 43200)|
      ≤ 1 / 2 := by
    have := abs_ROUND_sub_le ((TRIG_MAX_ANGLE : ℚ) / 43200.0 *
      ((Int.tmod t.tm_hour 12 * 3600 + t.tm_min * 60 + t.tm_sec : Int) : ℚ))
    have e : (TRIG_MAX_ANGLE : ℚ) *
          ((((t.tm_hour % 12 : Int) : ℚ) * 3600 + 60 * (t.tm_min : ℚ) + (t.tm_sec : ℚ)) / 43200)
        = (TRIG_MAX_ANGLE : ℚ) / 43200.0 *
          ((Int.tmod t.tm_hour 12 * 3600 + t.tm_min * 60 + t.tm_sec : Int) : ℚ) := by
      rw [hmod]; push_cast; norm_num; ring
    rw [hour_angle, e]; exact this
  refine ⟨A, B, C, ?_, ?_, ?_, ?_, ?_, ?_, ?_⟩
  · refine angle_in_turn _ _ A ?_ ?_
    · rw [hT]; positivity
    · rw [hT]; linarith
  · refine angle_in_turn _ _ B ?_ ?_
    · rw [hT]; positivity
    · rw [hT]; linarith
  · refine angle_in_turn _ _ C ?_ ?_
    · rw [hT]; positivity
    · rw [hT]; linarith
  · rw [lines_canvas_update_proc]
    cases settings.stopwatch_uses_big_second_hand <;> simp
  · have e : (TRIG_MAX_ANGLE : ℚ) / 43200.0 *
        ((Int.tmod 3 12 * 3600 + 0 * 60 + 0 : Int) : ℚ) = ((16384 : Int) : ℚ) := by
      norm_num [TRIG_MAX_ANGLE, Int.tmod]
    rw [hour_angle, e, ROUND_intCast]; decide
  · have e : (TRIG_MAX_ANGLE : ℚ) / 3600.0 * ((0 * 60 + 0 : Int) : ℚ) = ((0 : Int) : ℚ) := by
      norm_num
    rw [minute_angle, e, ROUND_intCast]
  · have e : (TRIG_MAX_ANGLE : ℚ) / 60.0 * ((0 : Int) : ℚ) = ((0 : Int) : ℚ) := by
      norm_num
    rw [second_angle, e, ROUND_intCast]

theorem canvas_update_proc_angles_witness :
    ((0 : Int) ≤ 15 ∧ (15 : Int) ≤ 23) ∧
    |(hour_angle ⟨0, 30, 15⟩ : ℚ) -
        (TRIG_MAX_ANGLE : ℚ) *
          ((((15 % 12 : Int) : ℚ) * 3600 + 60 * ((30 : Int) : ℚ) + ((0 : Int) : ℚ)) / 43200)|
      ≤ 1 / 2 :=
  ⟨by decide,
    (canvas_update_proc_angles sample_sin_lookup sample_cos_lookup default_settings
      (main_window_layout sample_sin_lookup sample_cos_lookup ⟨⟨0, 0⟩, ⟨144, 168⟩⟩ default_settings)
      ⟨0, 30, 15⟩ (by decide) (by decide) (by decide)).2.2.1⟩

/-! ## The stopwatch hands -/

theorem lines_stopwatch_update_proc {α : Type} [LinearOrderedField α] [FloorRing α]
    (sin_lookup cos_lookup : Int → α) (settings : WatchSettings) (L : Layout)
    (t : TimeWithMsec) :
    lines (stopwatch_update_proc sin_lookup cos_lookup settings L t) =
      [ DrawOp.draw_line L.center1
          (tick_point sin_lookup cos_lookup L.center1 (L.radius1 - 4) (msec_degrees t)),
        (if settings.stopwatch_uses_big_second_hand then
          DrawOp.draw_line L.center
            (tick_point sin_lookup cos_lookup L.center (L.second_hand_length - 4)
              (second_degrees t))
        else
          DrawOp.draw_line L.center2
            (tick_point sin_lookup cos_lookup L.center2 (L.radius2 - 4) (second_degrees t))),
        DrawOp.draw_line L.center3
          (tick_point sin_lookup cos_lookup L.center3 (L.radius3 - 4) (minute_degrees t)),
        DrawOp.draw_line L.center3
          (tick_point sin_lookup cos_lookup L.center3
            (ROUND (((L.radius3 : ℚ) - 4.0) * 2.0 / 3.0)) (hour_degrees t)) ] := by
  cases h : settings.stopwatch_uses_big_second_hand <;>
    simp [lines, stopwatch_update_proc, h, DrawOp.origin?, List.filter]

theorem msec_degrees_eq (t : TimeWithMsec) (h0 : 0 ≤ t.msec) :
    msec_degrees t = 360 * t.msec / 1000 := by
  have e : (360.0 : ℚ) * (t.msec : ℚ) / 1000
      = ((360 * t.msec : Int) : ℚ) / ((1000 : Int) : ℚ) := by
    push_cast; norm_num
  have hx : (0 : ℚ) ≤ ((360 * t.msec : Int) : ℚ) / ((1000 : Int) : ℚ) := by
    apply div_nonneg
    · exact_mod_cast (by omega : (0 : Int) ≤ 360 * t.msec)
    · norm_num
  rw [msec_degrees, e, toInt, if_pos hx, floor_intCast_div ℚ _ _ (by norm_num)]

/-- C5: for every elapsed value with `msec` in `0..999`, the whole-degree value
`stopwatch_update_proc` passes to `tick_point` for the tenths hand is
`360 * msec / 1000` truncated, always in `0..359`; the hand is the first line
drawn, from `center1` to the point at length `radius1 - 4` at that angle; for
`msec = 500` and `totalSeconds = 0` the angle is exactly 180 degrees. -/
theorem stopwatch_update_proc_tenths {α : Type} [LinearOrderedField α] [FloorRing α]
    (sin_lookup cos_lookup : Int → α) (settings : WatchSettings) (L : Layout)
    (t : TimeWithMsec) (h0 : 0 ≤ t.msec) (h1 : t.msec ≤ 999) :
    msec_degrees t = 360 * t.msec / 1000 ∧
    (0 ≤ msec_degrees t ∧ msec_degrees t ≤ 359) ∧
    ((msec_degrees t : ℚ) ≤ 360 * (t.msec : ℚ) / 1000 ∧
      360 * (t.msec : ℚ) / 1000 < (msec_degrees t : ℚ) + 1) ∧
    (lines (stopwatch_update_proc sin_lookup cos_lookup settings L t)).head? =
      some (DrawOp.draw_line L.center1
        (tick_point sin_lookup cos_lookup L.center1 (L.radius1 - 4) (360 * t.msec / 1000))) ∧
    msec_degrees ⟨0, 500⟩ = 180 := by
  have e := msec_degrees_eq t h0
  refine ⟨e, ?_, ?_, ?_, ?_⟩
  · rw [e]; omega
  · rw [e]
    have hq : (360 * (t.msec : ℚ) / 1000) = ((360 * t.msec : Int) : ℚ) / ((1000 : Int) : ℚ) := by
      push_cast; ring
    have hf := floor_intCast_div ℚ (360 * t.msec) 1000 (by norm_num)
    rw [hq, ← hf]
    exact ⟨Int.floor_le _, Int.lt_floor_add_one _⟩
  · rw [lines_stopwatch_update_proc, e]; rfl
  · rw [msec_degrees_eq _ (by decide)]; decide

theorem stopwatch_update_proc_tenths_witness :
    (0 : Int) ≤ 250 ∧ (250 : Int) ≤ 999 ∧
    msec_degrees ⟨7, 250⟩ = 360 * 250 / 1000 :=
  ⟨by decide, by decide,
    (stopwatch_update_proc_tenths sample_sin_lookup sample_cos_lookup default_settings
      (main_window_layout sample_sin_lookup sample_cos_lookup ⟨⟨0, 0⟩, ⟨144, 168⟩⟩ default_settings)
      ⟨7, 250⟩ (by decide) (by decide)).1⟩

theorem minute_degrees_eq (t : TimeWithMsec) :
    minute_degrees t = Int.tmod (Int.tdiv t.sec 60) 60 * 6 := by
  have e : ((Int.tmod (Int.tdiv t.sec 60) 60 : Int) : ℚ) * 6.0
      = ((Int.tmod (Int.tdiv t.sec 60) 60 * 6 : Int) : ℚ) := by
    push_cast; norm_num
  rw [minute_degrees, e, ROUND_intCast]

theorem hour_degrees_eq (t : TimeWithMsec) (h0 : 0 ≤ t.sec) :
    hour_degrees t = (t.sec / 60 % 720 + 1) / 2 := by
  have hd : Int.tdiv t.sec 60 = t.sec / 60 := Int.tdiv_eq_ediv h0 (by decide)
  have hm : Int.tmod (t.sec / 60) 720 = t.sec / 60 % 720 :=
    Int.tmod_eq_emod (Int.ediv_nonneg h0 (by decide)) (by decide)
  have hn : 0 ≤ t.sec / 60 % 720 := Int.emod_nonneg _ (by decide)
  have e : ((t.sec / 60 % 720 : Int) : ℚ) * 0.5
      = ((t.sec / 60 % 720 : Int) : ℚ) / ((2 : Int) : ℚ) := by
    push_cast; norm_num; ring
  rw [hour_degrees, hd, hm, e, ROUND_intCast_div ℚ _ _ (by decide), if_pos hn]
  omega

/-- C7, as the code has it: for every elapsed `totalSeconds ≥ 0`, with
`m = totalSeconds / 60` the whole minutes, the minute-style hand of sub-dial 3
is drawn at `(m mod 60) * 6` degrees with length `radius3 - 4`, and the
hour-style hand at the whole number of degrees nearest to `(m mod 720) * 0.5`,
a half rounded up, which is `((m mod 720) + 1) / 2`, in `0..360`. -/
theorem stopwatch_update_proc_minute_hour {α : Type} [LinearOrderedField α] [FloorRing α]
    (sin_lookup cos_lookup : Int → α) (settings : WatchSettings) (L : Layout)
    (t : TimeWithMsec) (h0 : 0 ≤ t.sec) :
    minute_degrees t = t.sec / 60 % 60 * 6 ∧
    hour_degrees t = (t.sec / 60 % 720 + 1) / 2 ∧
    |(hour_degrees t : ℚ) - ((t.sec / 60 % 720 : Int) : ℚ) * (1 / 2)| ≤ 1 / 2 ∧
    (0 ≤ hour_degrees t ∧ hour_degrees t ≤ 360) ∧
    (lines (stopwatch_update_proc sin_lookup cos_lookup settings L t)).drop 2 =
      [ DrawOp.draw_line L.center3
          (tick_point sin_lookup cos_lookup L.center3 (L.radius3 - 4) (t.sec / 60 % 60 * 6)),
        DrawOp.draw_line L.center3
          (tick_point sin_lookup cos_lookup L.center3
            (ROUND (((L.radius3 : ℚ) - 4.0) * 2.0 / 3.0)) ((t.sec / 60 % 720 + 1) / 2)) ] := by
  have hd : Int.tdiv t.sec 60 = t.sec / 60 := Int.tdiv_eq_ediv h0 (by decide)
  have hm : Int.tmod (t.sec / 60) 60 = t.sec / 60 % 60 :=
    Int.tmod_eq_emod (Int.ediv_nonneg h0 (by decide)) (by decide)
  have e1 : minute_degrees t = t.sec / 60 % 60 * 6 := by
    rw [minute_degrees_eq, hd, hm]
  have e2 := hour_degrees_eq t h0
  refine ⟨e1, e2, ?_, ?_, ?_⟩
  · have := abs_ROUND_sub_le (((Int.tmod (Int.tdiv t.sec 60) 720 : Int) : ℚ) * 0.5)
    have hm2 : Int.tmod (t.sec / 60) 720 = t.sec / 60 % 720 :=
      Int.tmod_eq_emod (Int.ediv_nonneg h0 (by decide)) (by decide)
    rw [hd, hm2] at this
    have e : ((t.sec / 60 % 720 : Int) : ℚ) * (1 / 2) = ((t.sec / 60 % 720 : Int) : ℚ) * 0.5 := by
      norm_num
    rw [hour_degrees, hd, hm2, e]; exact this
  · rw [e2]; omega
  · rw [lines_stopwatch_update_proc, e1, e2]; rfl

theorem stopwatch_update_proc_minute_hour_witness :
    (0 : Int) ≤ 60 ∧ hour_degrees ⟨60, 0⟩ = (60 / 60 % 720 + 1) / 2 :=
  ⟨by decide,
    (stopwatch_update_proc_minute_hour sample_sin_lookup sample_cos_lookup default_settings
      (main_window_layout sample_sin_lookup sample_cos_lookup ⟨⟨0, 0⟩, ⟨144, 168⟩⟩ default_settings)
      ⟨60, 0⟩ (by decide)).2.1⟩

/-- C7 as stated fails: after 60 elapsed seconds the claim puts the hour-style
hand at `(1 mod 720) * 0.5 = 0.5` degrees, while `stopwatch_update_proc` passes
the whole number 1 to `tick_point`, which is the trig angle 182 and not the 91
of half a degree. -/
theorem stopwatch_hour_hand_not_half_degree :
    hour_degrees ⟨60, 0⟩ = 1 ∧
    ((hour_degrees ⟨60, 0⟩ : Int) : ℚ) ≠ ((60 / 60 % 720 : Int) : ℚ) * (1 / 2) ∧
    DEG_TO_TRIGANGLE (hour_degrees ⟨60, 0⟩) = 182 ∧
    ⌊(TRIG_MAX_ANGLE : ℚ) * (((60 / 60 % 720 : Int) : ℚ) * (1 / 2)) / 360⌋ = 91 := by
  have h : hour_degrees ⟨60, 0⟩ = 1 := by
    rw [hour_degrees_eq _ (by decide)]; decide
  refine ⟨h, ?_, ?_, ?_⟩
  · rw [h]; norm_num
  · rw [h]; decide
  · rw [Int.floor_eq_iff]; norm_num [TRIG_MAX_ANGLE]

/-! ## Tick marks -/

section TickFacts

variable {α : Type} [LinearOrderedField α] [FloorRing α]

theorem draw_ticks_body_marks (sin_lookup cos_lookup : Int → α) (center : GPoint)
    (radius : Int) (count majorEvery : Nat) (thick : Int) (i : Nat)
    (hi : i * 360 ≤ 2147483647)
    (hr : -2147483647 ≤ radius ∧ radius ≤ 2147483646) :
    (draw_ticks_body sin_lookup cos_lookup center radius count majorEvery thick i).filter
        DrawOp.isMark =
      [tick_mark sin_lookup cos_lookup center radius count majorEvery (decide (thick ≠ 0)) i] := by
  have hw : int32 ((i : Int) * 360) = (i : Int) * 360 :=
    int32_of_small _ (by omega) (by omega)
  have hd : Int.tdiv ((i : Int) * 360) (count : Int) = ((i * 360 / count : Nat) : Int) := by
    rw [Int.ofNat_tdiv]; push_cast; rfl
  have hm : Int.tmod (i : Int) (majorEvery : Int) = 0 ↔ i % majorEvery = 0 := by
    rw [← Int.ofNat_tmod]; exact_mod_cast Iff.rfl
  have hp : int32 (radius + 1) = radius + 1 := int32_of_small _ (by omega) (by omega)
  have hq : int32 (radius - 1) = radius - 1 := int32_of_small _ (by omega) (by omega)
  unfold draw_ticks_body tick_mark
  simp only [hw, hd, hp, hq]
  by_cases h1 : i % majorEvery = 0
  · rw [if_pos (hm.mpr h1), if_pos h1]
    by_cases h2 : thick ≠ 0
    · simp [h2, DrawOp.isMark]
    · simp [h2, DrawOp.isMark]
  · rw [if_neg (fun h => h1 (hm.mp h)), if_neg h1]
    simp [DrawOp.isMark]

theorem flatMap_singleton_eq_map {β γ : Type} (f : β → γ) (l : List β) :
    l.flatMap (fun a => [f a]) = l.map f := by
  induction l with
  | nil => rfl
  | cons a l ih => simp [List.flatMap_cons, ih]

theorem filter_flatMap_congr {β γ : Type} (p : γ → Bool) (f : β → List γ) (g : β → γ)
    (l : List β) (h : ∀ a ∈ l, (f a).filter p = [g a]) :
    (l.flatMap f).filter p = l.map g := by
  induction l with
  | nil => rfl
  | cons a l ih =>
    rw [List.flatMap_cons, List.filter_append, h a (List.mem_cons_self a l),
      ih (fun b hb => h b (List.mem_cons_of_mem a hb))]
    rfl

theorem marks_of_draw_ticks (sin_lookup cos_lookup : Int → α) (center : GPoint)
    (radius : Int) (count majorEvery : Nat) (thick : Int)
    (hov : (count - 1) * 360 ≤ 2147483647)
    (hr : -2147483647 ≤ radius ∧ radius ≤ 2147483646) :
    (draw_ticks sin_lookup cos_lookup center radius count majorEvery thick).filter
        DrawOp.isMark =
      (List.range count).map
        (tick_mark sin_lookup cos_lookup center radius count majorEvery (decide (thick ≠ 0))) := by
  unfold draw_ticks
  rw [List.filter_append, Int.toNat_ofNat]
  have h0 : List.filter DrawOp.isMark
      [DrawOp.set_stroke_color GColor.GColorWhite, DrawOp.set_fill_color GColor.GColorWhite]
      = [] := rfl
  rw [h0, List.nil_append]
  apply filter_flatMap_congr
  intro i hi
  have hlt : i < count := List.mem_range.mp hi
  exact draw_ticks_body_marks sin_lookup cos_lookup center radius count majorEvery thick i
    (by omega) hr

theorem tick_mark_block_isRect (sin_lookup cos_lookup : Int → α) (center : GPoint)
    (radius : Int) (count majorEvery i : Nat) :
    (tick_mark sin_lookup cos_lookup center radius count majorEvery true i).isRect =
      decide (i % majorEvery = 0) := by
  unfold tick_mark
  by_cases h : i % majorEvery = 0 <;> simp [h, DrawOp.isRect]

theorem tick_mark_block_isPixel (sin_lookup cos_lookup : Int → α) (center : GPoint)
    (radius : Int) (count majorEvery i : Nat) :
    (tick_mark sin_lookup cos_lookup center radius count majorEvery true i).isPixel =
      decide (¬ i % majorEvery = 0) := by
  unfold tick_mark
  by_cases h : i % majorEvery = 0 <;> simp [h, DrawOp.isPixel]

/-- C6, as the code has it: for every `count ≥ 1` with `(count - 1) * 360` within
`int`, every `majorEvery ≥ 1` and every radius with `radius - 1` and
`radius + 1` within `int`, the marks `draw_ticks` issues are exactly one per
index `i` in `0..count-1`, in order, the one of index `i` at the mark point
`tick_point(center, radius, i*360/count)`: major if and only if
`i mod majorEvery = 0`, and otherwise the single pixel at the mark point; a
major mark in line style is the segment between the points at `radius + 1` and
`radius - 1` on the same angle, and in block style the filled 3x3 rectangle
whose origin is the mark point moved by `(-1, -1)` and stored in 16 bits, so
that its centre pixel is the mark point whenever neither coordinate of the mark
point is `-32768`.  The 60/5 block call of the main dial draws 12 major and 48
minor marks. -/
theorem draw_ticks_marks (sin_lookup cos_lookup : Int → α) (center : GPoint)
    (radius : Int) (count majorEvery : Nat) (thick : Int)
    (hc : 1 ≤ count) (hov : (count - 1) * 360 ≤ 2147483647) (hm : 1 ≤ majorEvery)
    (hr : -2147483647 ≤ radius ∧ radius ≤ 2147483646) :
    ((draw_ticks sin_lookup cos_lookup center radius count majorEvery thick).filter
        DrawOp.isMark).length = count ∧
    (∀ i, i < count →
      ((draw_ticks sin_lookup cos_lookup center radius count majorEvery thick).filter
          DrawOp.isMark)[i]? =
        some (
          if i % majorEvery = 0 then
            if thick ≠ 0 then
              DrawOp.fill_rect
                ⟨⟨int16 ((tick_point sin_lookup cos_lookup center radius
                      ((i * 360 / count : Nat) : Int)).x - 1),
                    int16 ((tick_point sin_lookup cos_lookup center radius
                      ((i * 360 / count : Nat) : Int)).y - 1)⟩, ⟨3, 3⟩⟩
            else
              DrawOp.draw_line
                (tick_point sin_lookup cos_lookup center (radius + 1)
                  ((i * 360 / count : Nat) : Int))
                (tick_point sin_lookup cos_lookup center (radius - 1)
                  ((i * 360 / count : Nat) : Int))
          else
            DrawOp.draw_pixel
              (tick_point sin_lookup cos_lookup center radius
                ((i * 360 / count : Nat) : Int)))) ∧
    (∀ i, i < count →
      -32768 < (tick_point sin_lookup cos_lookup center radius
        ((i * 360 / count : Nat) : Int)).x →
      -32768 < (tick_point sin_lookup cos_lookup center radius
        ((i * 360 / count : Nat) : Int)).y →
      int16 ((tick_point sin_lookup cos_lookup center radius
          ((i * 360 / count : Nat) : Int)).x - 1) + 1 =
        (tick_point sin_lookup cos_lookup center radius ((i * 360 / count : Nat) : Int)).x ∧
      int16 ((tick_point sin_lookup cos_lookup center radius
          ((i * 360 / count : Nat) : Int)).y - 1) + 1 =
        (tick_point sin_lookup cos_lookup center radius ((i * 360 / count : Nat) : Int)).y) ∧
    ((draw_ticks sin_lookup cos_lookup center radius count majorEvery thick).filter
        DrawOp.isMark).head? =
      some (
        if thick ≠ 0 then
          DrawOp.fill_rect
            ⟨⟨int16 ((tick_point sin_lookup cos_lookup center radius 0).x - 1),
                int16 ((tick_point sin_lookup cos_lookup center radius 0).y - 1)⟩, ⟨3, 3⟩⟩
        else
          DrawOp.draw_line (tick_point sin_lookup cos_lookup center (radius + 1) 0)
            (tick_point sin_lookup cos_lookup center (radius - 1) 0)) ∧
    ((draw_ticks sin_lookup cos_lookup center radius 60 5 1).filter DrawOp.isMark).countP
        DrawOp.isRect = 12 ∧
    ((draw_ticks sin_lookup cos_lookup center radius 60 5 1).filter DrawOp.isMark).countP
        DrawOp.isPixel = 48 := by
  have key := marks_of_draw_ticks sin_lookup cos_lookup center radius count majorEvery thick
    hov hr
  have key60 := marks_of_draw_ticks sin_lookup cos_lookup center radius 60 5 1 (by decide) hr
  have h60 : (((60 : Nat) : Int)) = 60 := rfl
  have h5 : (((5 : Nat) : Int)) = 5 := rfl
  rw [h60, h5] at key60
  refine ⟨?_, ?_, ?_, ?_, ?_, ?_⟩
  · rw [key]; simp
  · intro i hi
    rw [key, List.getElem?_map, List.getElem?_range hi]
    simp only [Option.map_some', tick_mark]
    by_cases h1 : i % majorEvery = 0 <;> by_cases h2 : thick ≠ 0 <;> simp [h1, h2]
  · intro i _ hx hy
    obtain ⟨⟨_, bx⟩, ⟨_, b_y⟩⟩ := tick_point_range sin_lookup cos_lookup center radius
      ((i * 360 / count : Nat) : Int)
    rw [int16_of_small _ (by omega) (by omega), int16_of_small _ (by omega) (by omega)]
    omega
  · obtain ⟨n, rfl⟩ : ∃ n, count = n + 1 := ⟨count - 1, by omega⟩
    rw [key, List.range_succ_eq_map]
    simp only [List.map_cons, List.head?_cons, tick_mark]
    by_cases h2 : thick ≠ 0 <;> simp [h2]
  · rw [key60, List.countP_map]
    have : (DrawOp.isRect ∘ tick_mark sin_lookup cos_lookup center radius 60 5
        (decide ((1 : Int) ≠ 0))) = fun i => decide (i % 5 = 0) := by
      funext i
      simp only [Function.comp]
      exact tick_mark_block_isRect sin_lookup cos_lookup center radius 60 5 i
    rw [this]; decide
  · rw [key60, List.countP_map]
    have : (DrawOp.isPixel ∘ tick_mark sin_lookup cos_lookup center radius 60 5
        (decide ((1 : Int) ≠ 0))) = fun i => decide (¬ i % 5 = 0) := by
      funext i
      simp only [Function.comp]
      exact tick_mark_block_isPixel sin_lookup cos_lookup center radius 60 5 i
    rw [this]; decide

end TickFacts

theorem draw_ticks_marks_witness :
    1 ≤ 20 ∧ (20 - 1) * 360 ≤ 2147483647 ∧ 1 ≤ 2 ∧
    ((-2147483647 : Int) ≤ 20 ∧ (20 : Int) ≤ 2147483646) ∧
    ((draw_ticks sample_sin_lookup sample_cos_lookup ⟨72, 42⟩ 20 (20 : Nat) (2 : Nat) 1).filter
        DrawOp.isMark).length = 20 :=
  ⟨by decide, by decide, by decide, by decide,
    (draw_ticks_marks sample_sin_lookup sample_cos_lookup ⟨72, 42⟩ 20 20 2 1
      (by decide) (by decide) (by decide) (by decide)).1⟩

/-- C6 as stated fails.  At the centre `(0, -32767)` with radius 1 the single
mark of `draw_ticks(center, 1, 1, 1, 1)` has the mark point `(0, -32768)`, and
the rectangle drawn has the origin `(-1, 32767)`, not `(-1, -32769)`: its
centre pixel is not the mark point.  With 6000000 ticks the `int` product
`i * 360` leaves the 32-bit range at index 5999999, and the degrees passed to
`tick_point` are `-355` instead of `5999999 * 360 / 6000000 = 359`. -/
theorem draw_ticks_mark_wraps :
    (draw_ticks sample_sin_lookup sample_cos_lookup ⟨0, -32767⟩ 1 1 1 1).filter DrawOp.isMark =
      [DrawOp.fill_rect ⟨⟨-1, 32767⟩, ⟨3, 3⟩⟩] ∧
    tick_point sample_sin_lookup sample_cos_lookup ⟨0, -32767⟩ 1 ((0 * 360 / 1 : Nat) : Int) =
      ⟨0, -32768⟩ ∧
    (32767 : Int) + 1 ≠ -32768 ∧
    draw_ticks_body sample_sin_lookup sample_cos_lookup ⟨0, -32767⟩ 1 6000000 7 1 5999999 =
      [DrawOp.draw_pixel (tick_point sample_sin_lookup sample_cos_lookup ⟨0, -32767⟩ 1 (-355))] ∧
    ((5999999 * 360 / 6000000 : Nat) : Int) = 359 := by
  have hs : sample_sin_lookup 0 = 0 := by simp [sample_sin_lookup]
  have hc : sample_cos_lookup 0 = ( TRIG_MAX_RATIO : ℚ) := by
    norm_num [sample_cos_lookup, TRIG_MAX_RATIO]
  have h0 : DEG_TO_TRIGANGLE 0 = 0 := by decide
  have hp : tick_point sample_sin_lookup sample_cos_lookup ⟨0, -32767⟩ 1 0 = ⟨0, -32768⟩ := by
    simp only [tick_point, h0]
    rw [tick_angle_point_up sample_sin_lookup sample_cos_lookup ⟨0, -32767⟩ 1 0 hs hc]
    decide
  refine ⟨?_, ?_, by decide, ?_, by decide⟩
  · have key := marks_of_draw_ticks sample_sin_lookup sample_cos_lookup ⟨0, -32767⟩ 1 1 1 1
      (by decide) (by decide)
    have h1 : (((1 : Nat) : Int)) = 1 := rfl
    rw [h1] at key
    rw [key]
    have hz : ((0 * 360 / 1 : Nat) : Int) = 0 := by decide
    have hr1 : List.range 1 = [0] := rfl
    simp only [hr1, List.map_cons, List.map_nil, tick_mark, hz, hp]
    decide
  · have hz : ((0 * 360 / 1 : Nat) : Int) = 0 := by decide
    rw [hz]; exact hp
  · have hd : Int.tdiv (int32 (5999999 * 360)) 6000000 = -355 := by decide
    have hm : Int.tmod 5999999 7 ≠ 0 := by decide
    simp only [draw_ticks_body, hd, if_neg hm]

/-! ## The layout computed at window load -/

section LayoutFacts

variable {α : Type} [LinearOrderedField α] [FloorRing α]

theorem layout_after_load (sin_lookup cos_lookup : Int → α) (s : App) :
    (main_window_load sin_lookup cos_lookup s).layout =
      main_window_layout sin_lookup cos_lookup ⟨⟨0, 0⟩, s.display⟩
        (s.persist_settings.getD default_settings) := by
  unfold main_window_load
  simp only
  split_ifs <;> rfl

theorem settings_after_load (sin_lookup cos_lookup : Int → α) (s : App) :
    (main_window_load sin_lookup cos_lookup s).settings =
      s.persist_settings.getD default_settings := by
  unfold main_window_load
  simp only
  split_ifs <;> rfl

/-- C10: for every window size `(w, h)` (the height a non-negative 16-bit value) and every
stored settings record, `main_window_load` takes 18 pixels off the height
available to the watch face when (show_date or show_battery) and
use_larger_font, 14 when (show_date or show_battery) and not use_larger_font,
and 0 otherwise; with `mainRadius = min(available height, w) / 2 - 2` (the
division of C) the second hand length is `mainRadius - 3`, the minute and hour
hand lengths are `0.8 * mainRadius` and `0.5 * mainRadius` rounded, each within
1/2 of the unrounded value, and the sub-dial radii are 20, 20 and 30. -/
theorem main_window_load_layout (sin_lookup cos_lookup : Int → α) (s : App) (w h : Int)
    (st : WatchSettings) (hh : 0 ≤ h ∧ h ≤ 32767) :
    (main_window_load sin_lookup cos_lookup
        { s with display := ⟨w, h⟩, persist_settings := some st }).layout.watch_bounds.size =
      ⟨w, h - (if st.show_date || st.show_battery then
                (if st.use_larger_font then 18 else 14) else 0)⟩ ∧
    (main_window_load sin_lookup cos_lookup
        { s with display := ⟨w, h⟩, persist_settings := some st }).layout.tick_radius =
      Int.tdiv (min (h - (if st.show_date || st.show_battery then
                (if st.use_larger_font then 18 else 14) else 0)) w) 2 - 2 ∧
    (main_window_load sin_lookup cos_lookup
        { s with display := ⟨w, h⟩, persist_settings := some st }).layout.second_hand_length =
      (main_window_load sin_lookup cos_lookup
        { s with display := ⟨w, h⟩, persist_settings := some st }).layout.tick_radius - 3 ∧
    (main_window_load sin_lookup cos_lookup
        { s with display := ⟨w, h⟩, persist_settings := some st }).layout.minute_hand_length =
      ROUND ((0.8 : ℚ) * (((main_window_load sin_lookup cos_lookup
        { s with display := ⟨w, h⟩, persist_settings := some st }).layout.tick_radius : Int) : ℚ)) ∧
    (main_window_load sin_lookup cos_lookup
        { s with display := ⟨w, h⟩, persist_settings := some st }).layout.hour_hand_length =
      ROUND ((0.5 : ℚ) * (((main_window_load sin_lookup cos_lookup
        { s with display := ⟨w, h⟩, persist_settings := some st }).layout.tick_radius : Int) : ℚ)) ∧
    |(((main_window_load sin_lookup cos_lookup
        { s with display := ⟨w, h⟩, persist_settings := some st }).layout.minute_hand_length
          : Int) : ℚ) - 0.8 * (((main_window_load sin_lookup cos_lookup
        { s with display := ⟨w, h⟩, persist_settings := some st }).layout.tick_radius : Int) : ℚ)|
      ≤ 1 / 2 ∧
    |(((main_window_load sin_lookup cos_lookup
        { s with display := ⟨w, h⟩, persist_settings := some st }).layout.hour_hand_length
          : Int) : ℚ) - 0.5 * (((main_window_load sin_lookup cos_lookup
        { s with display := ⟨w, h⟩, persist_settings := some st }).layout.tick_radius : Int) : ℚ)|
      ≤ 1 / 2 ∧
    (main_window_load sin_lookup cos_lookup
        { s with display := ⟨w, h⟩, persist_settings := some st }).layout.radius1 = 20 ∧
    (main_window_load sin_lookup cos_lookup
        { s with display := ⟨w, h⟩, persist_settings := some st }).layout.radius2 = 20 ∧
    (main_window_load sin_lookup cos_lookup
        { s with display := ⟨w, h⟩, persist_settings := some st }).layout.radius3 = 30 := by
  rw [layout_after_load]
  simp only [Option.getD_some]
  have e18 : int16 (h - 18) = h - 18 := int16_of_small _ (by omega) (by omega)
  have e14 : int16 (h - 14) = h - 14 := int16_of_small _ (by omega) (by omega)
  have hmin : ∀ a b : Int, MIN a b = min a b := by
    intro a b
    unfold MIN
    split_ifs with hlt
    · exact (min_eq_left hlt.le).symm
    · exact (min_eq_right (not_lt.mp hlt)).symm
  refine ⟨?_, ?_, rfl, ?_, ?_, ?_, ?_, rfl, rfl, rfl⟩
  · unfold main_window_layout
    by_cases h1 : (st.show_date || st.show_battery) = true <;>
      by_cases h2 : st.use_larger_font = true <;>
      simp [h1, h2, e18, e14]
  · unfold main_window_layout
    by_cases h1 : (st.show_date || st.show_battery) = true <;>
      by_cases h2 : st.use_larger_font = true <;>
      simp [h1, h2, e18, e14, hmin]
  · simp only [main_window_layout, mul_comm]
  · simp only [main_window_layout, mul_comm]
  · simp only [main_window_layout, mul_comm (0.8 : ℚ)]
    exact abs_ROUND_sub_le _
  · simp only [main_window_layout, mul_comm (0.5 : ℚ)]
    exact abs_ROUND_sub_le _

end LayoutFacts

theorem main_window_load_layout_witness :
    ((0 : Int) ≤ 168 ∧ (168 : Int) ≤ 32767) ∧
    (main_window_load sample_sin_lookup sample_cos_lookup
        { App.start ⟨0, 0⟩ none none with
          display := ⟨144, 168⟩
          persist_settings := some ⟨true, false, false, true, true⟩ }).layout.watch_bounds.size =
      ⟨144, 168 - (if (true || false) then (if true then 18 else 14) else 0)⟩ :=
  ⟨by decide,
    (main_window_load_layout sample_sin_lookup sample_cos_lookup (App.start ⟨0, 0⟩ none none)
      144 168 ⟨true, false, false, true, true⟩ (by decide)).1⟩

/-! ## The two seconds hands -/

/-- C8, as the code has it: when `stopwatch_uses_big_second_hand` is true,
`stopwatch_update_proc` draws the stopwatch seconds hand from the centre of the
main dial with length `second_hand_length - 4`, and `canvas_update_proc` draws
the wall-clock seconds hand from the centre of sub-dial 2 with length
`radius2 - 4`; the two origins coincide only if the two centres do. -/
theorem second_hands_big_mode {α : Type} [LinearOrderedField α] [FloorRing α]
    (sin_lookup cos_lookup : Int → α) (settings : WatchSettings) (L : Layout)
    (t : TimeWithMsec) (now : Tm) (hbig : settings.stopwatch_uses_big_second_hand = true) :
    (lines (stopwatch_update_proc sin_lookup cos_lookup settings L t))[1]? =
      some (DrawOp.draw_line L.center
        (tick_point sin_lookup cos_lookup L.center (L.second_hand_length - 4)
          (second_degrees t))) ∧
    (lines (canvas_update_proc sin_lookup cos_lookup settings L now))[0]? =
      some (DrawOp.draw_line L.center2
        (tick_angle_point sin_lookup cos_lookup L.center2 (L.radius2 - 4) (second_angle now))) ∧
    (((lines (stopwatch_update_proc sin_lookup cos_lookup settings L t))[1]?.bind DrawOp.origin? =
        (lines (canvas_update_proc sin_lookup cos_lookup settings L now))[0]?.bind DrawOp.origin?)
      ↔ L.center = L.center2) := by
  rw [lines_stopwatch_update_proc, lines_canvas_update_proc, hbig]
  simp [DrawOp.origin?]

theorem second_hands_big_mode_witness :
    default_settings.stopwatch_uses_big_second_hand = true ∧
    (lines (canvas_update_proc sample_sin_lookup sample_cos_lookup default_settings
      (main_window_layout sample_sin_lookup sample_cos_lookup ⟨⟨0, 0⟩, ⟨144, 168⟩⟩ default_settings)
      ⟨0, 0, 3⟩))[0]? =
      some (DrawOp.draw_line
        (main_window_layout sample_sin_lookup sample_cos_lookup
          ⟨⟨0, 0⟩, ⟨144, 168⟩⟩ default_settings).center2
        (tick_angle_point sample_sin_lookup sample_cos_lookup
          (main_window_layout sample_sin_lookup sample_cos_lookup
            ⟨⟨0, 0⟩, ⟨144, 168⟩⟩ default_settings).center2
          ((main_window_layout sample_sin_lookup sample_cos_lookup
            ⟨⟨0, 0⟩, ⟨144, 168⟩⟩ default_settings).radius2 - 4)
          (second_angle ⟨0, 0, 3⟩))) :=
  ⟨rfl,
    (second_hands_big_mode sample_sin_lookup sample_cos_lookup default_settings
      (main_window_layout sample_sin_lookup sample_cos_lookup ⟨⟨0, 0⟩, ⟨144, 168⟩⟩ default_settings)
      ⟨0, 0⟩ ⟨0, 0, 3⟩ rfl).2.1⟩

theorem sample_layout_centers :
    (main_window_layout sample_sin_lookup sample_cos_lookup
        ⟨⟨0, 0⟩, ⟨144, 168⟩⟩ default_settings).center = ⟨72, 84⟩ ∧
    (main_window_layout sample_sin_lookup sample_cos_lookup
        ⟨⟨0, 0⟩, ⟨144, 168⟩⟩ default_settings).center2 = ⟨38, 75⟩ := by
  have hr : Int.tdiv (MIN 168 144) 2 - 2 = 70 := by decide
  have hhalf : ROUND (((70 : Int) : ℚ) * 0.5) = 35 := by
    have e : ((70 : Int) : ℚ) * 0.5 = ((35 : Int) : ℚ) := by norm_num
    rw [e, ROUND_intCast]
  have hc : grect_center_point ⟨⟨0, 0⟩, ⟨144, 168⟩⟩ = ⟨72, 84⟩ := by decide
  have ha : DEG_TO_TRIGANGLE 285 = 51882 := by decide
  have hx : ROUND (((35 : Int) : ℚ) * 1.0 * sample_sin_lookup 51882 / ( TRIG_MAX_RATIO : ℚ))
      = -34 := by
    have e : ((35 : Int) : ℚ) * 1.0 * sample_sin_lookup 51882 / ( TRIG_MAX_RATIO : ℚ)
        = ((35 * -63302 : Int) : ℚ) / ((65535 : Int) : ℚ) := by
      norm_num [sample_sin_lookup, TRIG_MAX_RATIO]
    rw [e, ROUND_intCast_div ℚ _ _ (by decide)]; decide
  have hy : ROUND (((35 : Int) : ℚ) * 1.0 * sample_cos_lookup 51882 / ( TRIG_MAX_RATIO : ℚ))
      = 9 := by
    have e : ((35 : Int) : ℚ) * 1.0 * sample_cos_lookup 51882 / ( TRIG_MAX_RATIO : ℚ)
        = ((35 * 16962 : Int) : ℚ) / ((65535 : Int) : ℚ) := by
      norm_num [sample_cos_lookup, TRIG_MAX_RATIO]
    rw [e, ROUND_intCast_div ℚ _ _ (by decide)]; decide
  constructor
  · simp only [main_window_layout, default_settings, Bool.or_self, Bool.false_eq_true, if_false, hc]
  · simp only [main_window_layout, default_settings, Bool.or_self, Bool.false_eq_true, if_false, hc,
      hr, hhalf, tick_point, ha, tick_angle_point, hx, hy]
    decide

/-- C8 as stated fails: on the 144x168 display with the default settings, in
which `stopwatch_uses_big_second_hand` is true, the stopwatch seconds hand
starts at the centre `(72, 84)` of the main dial and the wall-clock seconds hand
at the centre `(38, 75)` of sub-dial 2. -/
theorem second_hands_origins_differ :
    (init sample_sin_lookup sample_cos_lookup
      (App.start ⟨144, 168⟩ none none)).settings.stopwatch_uses_big_second_hand = true ∧
    (lines (stopwatch_update_proc sample_sin_lookup sample_cos_lookup
      (init sample_sin_lookup sample_cos_lookup (App.start ⟨144, 168⟩ none none)).settings
      (init sample_sin_lookup sample_cos_lookup (App.start ⟨144, 168⟩ none none)).layout
      ⟨0, 0⟩))[1]?.bind DrawOp.origin? = some ⟨72, 84⟩ ∧
    (lines (canvas_update_proc sample_sin_lookup sample_cos_lookup
      (init sample_sin_lookup sample_cos_lookup (App.start ⟨144, 168⟩ none none)).settings
      (init sample_sin_lookup sample_cos_lookup (App.start ⟨144, 168⟩ none none)).layout
      ⟨0, 0, 3⟩))[0]?.bind DrawOp.origin? = some ⟨38, 75⟩ ∧
    (lines (stopwatch_update_proc sample_sin_lookup sample_cos_lookup
      (init sample_sin_lookup sample_cos_lookup (App.start ⟨144, 168⟩ none none)).settings
      (init sample_sin_lookup sample_cos_lookup (App.start ⟨144, 168⟩ none none)).layout
      ⟨0, 0⟩))[1]?.bind DrawOp.origin? ≠
    (lines (canvas_update_proc sample_sin_lookup sample_cos_lookup
      (init sample_sin_lookup sample_cos_lookup (App.start ⟨144, 168⟩ none none)).settings
      (init sample_sin_lookup sample_cos_lookup (App.start ⟨144, 168⟩ none none)).layout
      ⟨0, 0, 3⟩))[0]?.bind DrawOp.origin? := by
  have hl : (init sample_sin_lookup sample_cos_lookup (App.start ⟨144, 168⟩ none none)).layout
      = main_window_layout sample_sin_lookup sample_cos_lookup
          ⟨⟨0, 0⟩, ⟨144, 168⟩⟩ default_settings := by
    simp only [init, window_set_click_config_provider, main_window_create]
    rw [layout_after_load]; rfl
  have hs : (init sample_sin_lookup sample_cos_lookup (App.start ⟨144, 168⟩ none none)).settings
      = default_settings := by
    simp only [init, window_set_click_config_provider, main_window_create]
    rw [settings_after_load]; rfl
  have hc := sample_layout_centers
  have hd : default_settings.stopwatch_uses_big_second_hand = true := rfl
  rw [hl, hs, lines_stopwatch_update_proc, lines_canvas_update_proc, hd]
  simp [DrawOp.origin?, hc.1, hc.2]

/-! ## Timers and click handlers across a window rebuild -/

section LifecycleFacts

variable {α : Type} [LinearOrderedField α] [FloorRing α]

/-- C3 fails on the code: from start-up, a window load, an up press that starts
the stopwatch and a second window load (the one a configuration message
causes) leave two stopwatch timers pending, because `main_window_load`
registers a timer without cancelling the one `timer_handle` holds, which
`up_single_click_handler` does.  Both timers then rearm themselves for ever. -/
theorem reload_while_running_leaves_two_timers (sin_lookup cos_lookup : Int → α)
    (display : GSize) (now : Int) :
    (run sin_lookup cos_lookup (App.start display none none)
      [.load, .up now]).pending_timers = [0] ∧
    (run sin_lookup cos_lookup (App.start display none none)
      [.load, .up now, .load]).pending_timers = [0, 1] ∧
    (run sin_lookup cos_lookup (App.start display none none)
      [.load, .up now, .load, .fire 0, .fire 1]).pending_timers = [2, 3] ∧
    (message_handler sin_lookup cos_lookup ⟨some 1, none, none, none, none⟩
      (press_up now (init sin_lookup cos_lookup (App.start display none none)))).pending_timers
      = [0, 1] := by
  refine ⟨?_, ?_, ?_, ?_⟩
  · simp [run, step, App.start, main_window_load, up_single_click_handler, timer_fired,
      update_stopwatch, app_timer_register, app_timer_cancel, stopwatch_load_persist,
      stopwatch_start_stop, StopwatchState.initial]
  · simp [run, step, App.start, main_window_load, up_single_click_handler, timer_fired,
      update_stopwatch, app_timer_register, app_timer_cancel, stopwatch_load_persist,
      stopwatch_start_stop, StopwatchState.initial]
  · simp [run, step, App.start, main_window_load, up_single_click_handler, timer_fired,
      update_stopwatch, app_timer_register, app_timer_cancel, stopwatch_load_persist,
      stopwatch_start_stop, StopwatchState.initial]
  · simp [message_handler, press_up, init, main_window_create, main_window_destroy,
      main_window_unload, window_set_click_config_provider, top_has_click_config_provider,
      App.start, main_window_load, up_single_click_handler,
      app_timer_register, app_timer_cancel, stopwatch_load_persist,
      stopwatch_start_stop, StopwatchState.initial]

/-- C9 fails on the code: `init` sets the click configuration provider on the
first window only; a configuration message with a known key destroys that
window and `main_window_create` pushes a new one without a provider, so an up
or down press reaches no handler any more. -/
theorem rebuilt_window_has_no_click_provider (sin_lookup cos_lookup : Int → α)
    (display : GSize) (now : Int) :
    top_has_click_config_provider
      (init sin_lookup cos_lookup (App.start display none none)) = true ∧
    top_has_click_config_provider
      (message_handler sin_lookup cos_lookup ⟨some 1, none, none, none, none⟩
        (init sin_lookup cos_lookup (App.start display none none))) = false ∧
    press_up now
      (message_handler sin_lookup cos_lookup ⟨some 1, none, none, none, none⟩
        (init sin_lookup cos_lookup (App.start display none none))) =
      message_handler sin_lookup cos_lookup ⟨some 1, none, none, none, none⟩
        (init sin_lookup cos_lookup (App.start display none none)) ∧
    press_down
      (message_handler sin_lookup cos_lookup ⟨some 1, none, none, none, none⟩
        (init sin_lookup cos_lookup (App.start display none none))) =
      message_handler sin_lookup cos_lookup ⟨some 1, none, none, none, none⟩
        (init sin_lookup cos_lookup (App.start display none none)) := by
  have h1 : top_has_click_config_provider
      (init sin_lookup cos_lookup (App.start display none none)) = true := by
    simp [init, main_window_create, window_set_click_config_provider,
      top_has_click_config_provider, App.start, main_window_load, app_timer_register,
      stopwatch_load_persist, StopwatchState.initial]
  have h2 : top_has_click_config_provider
      (message_handler sin_lookup cos_lookup ⟨some 1, none, none, none, none⟩
        (init sin_lookup cos_lookup (App.start display none none))) = false := by
    simp [message_handler, init, main_window_create, main_window_destroy,
      main_window_unload, window_set_click_config_provider, top_has_click_config_provider,
      App.start, main_window_load, app_timer_register,
      stopwatch_load_persist, StopwatchState.initial]
  refine ⟨h1, h2, ?_, ?_⟩
  · rw [press_up, h2]; rfl
  · rw [press_down, h2]; rfl

end LifecycleFacts

/-! ## Distance of a dial point from the centre -/

theorem near_circle_bounds (r u v X Y : ℝ) (hr : 0 ≤ r) (hr2 : r ≤ 1 ∨ 2 ≤ r)
    (h : u ^ 2 + v ^ 2 = r ^ 2) (hX : |X - u| ≤ 1 / 2) (hY : |Y - v| ≤ 1 / 2) :
    r - 1 ≤ Real.sqrt (X ^ 2 + Y ^ 2) ∧ Real.sqrt (X ^ 2 + Y ^ 2) ≤ r + 1 := by
  obtain ⟨a1, a2⟩ := abs_le.mp hX
  obtain ⟨b1, b2⟩ := abs_le.mp hY
  obtain ⟨e1, he1⟩ : ∃ e1 : ℝ, e1 = X - u := ⟨_, rfl⟩
  obtain ⟨e2, he2⟩ : ∃ e2 : ℝ, e2 = Y - v := ⟨_, rfl⟩
  rw [← he1] at a1 a2
  rw [← he2] at b1 b2
  have hXe : X = u + e1 := by rw [he1]; ring
  have hYe : Y = v + e2 := by rw [he2]; ring
  have q1 : e1 ^ 2 ≤ 1 / 4 := by nlinarith
  have q2 : e2 ^ 2 ≤ 1 / 4 := by nlinarith
  have id : (u * e1 + v * e2) ^ 2 + (u * e2 - v * e1) ^ 2
      = r ^ 2 * (e1 ^ 2 + e2 ^ 2) := by
    rw [← h]; ring
  have hb : r ^ 2 * (e1 ^ 2 + e2 ^ 2) ≤ r ^ 2 * (1 / 2) :=
    mul_le_mul_of_nonneg_left (by linarith) (sq_nonneg r)
  have cs : (u * e1 + v * e2) ^ 2 ≤ (3 / 4 * r) ^ 2 := by
    have := sq_nonneg (u * e2 - v * e1)
    have := sq_nonneg r
    have e : (3 / 4 * r) ^ 2 = 9 / 16 * r ^ 2 := by ring
    rw [e]
    linarith
  obtain ⟨w1, w2⟩ := abs_le_of_sq_le_sq' cs (by positivity)
  have expand : X ^ 2 + Y ^ 2 = r ^ 2 + 2 * (u * e1 + v * e2) + e1 ^ 2 + e2 ^ 2 := by
    rw [← h, hXe, hYe]; ring
  have s1 := sq_nonneg e1
  have s2 := sq_nonneg e2
  constructor
  · rcases hr2 with hsmall | h2
    · have := Real.sqrt_nonneg (X ^ 2 + Y ^ 2)
      linarith
    · apply Real.le_sqrt_of_sq_le
      have e : (r - 1) ^ 2 = r ^ 2 - 2 * r + 1 := by ring
      rw [expand, e]
      linarith
  · apply Real.sqrt_le_iff.mpr
    refine ⟨by linarith, ?_⟩
    have e : (r + 1) ^ 2 = r ^ 2 + 2 * r + 1 := by ring
    rw [expand, e]
    linarith

theorem ROUND_abs_le (x : ℝ) (n : Int) (h0 : -(n : ℝ) ≤ x) (h1 : x ≤ (n : ℝ)) :
    -n ≤ ROUND x ∧ ROUND x ≤ n := by
  obtain ⟨a1, a2⟩ := abs_le.mp (abs_ROUND_sub_le x)
  constructor
  · have : ((-n - 1 : Int) : ℝ) < ((ROUND x : Int) : ℝ) := by push_cast; linarith
    have : -n - 1 < ROUND x := by exact_mod_cast this
    omega
  · have : ((ROUND x : Int) : ℝ) < ((n + 1 : Int) : ℝ) := by push_cast; linarith
    have : ROUND x < n + 1 := by exact_mod_cast this
    omega

/-- C1, as the code has it: with `sin_lookup` and `cos_lookup` taken as the sine
and cosine of the angle scaled by `TRIG_MAX_RATIO`, and `ROUND` rounding to the
nearest integer, for every centre `(cx, cy)`, every radius `r ≥ 0` for which
`cx - r`, `cx + r`, `cy - r` and `cy + r` are 16-bit values, and every
whole-degree angle `d` with `0 ≤ d < 360`, the point `tick_point(center, r, d)`
lies at Euclidean distance between `r - 1` and `r + 1` from the centre; the
trig angle used lies within one turn. -/
theorem tick_point_distance (center : GPoint) (r d : Int) (hr : 0 ≤ r)
    (hcx : -32768 ≤ center.x - r ∧ center.x + r ≤ 32767)
    (hcy : -32768 ≤ center.y - r ∧ center.y + r ≤ 32767)
    (hd : 0 ≤ d ∧ d < 360) :
    (r : ℝ) - 1 ≤
      Real.sqrt
        ((((tick_point
              (fun a : Int =>
                ( TRIG_MAX_RATIO : ℝ) * Real.sin (2 * Real.pi * (a : ℝ) / (TRIG_MAX_ANGLE : ℝ)))
              (fun a : Int =>
                ( TRIG_MAX_RATIO : ℝ) * Real.cos (2 * Real.pi * (a : ℝ) / (TRIG_MAX_ANGLE : ℝ)))
              center r d).x - center.x : Int) : ℝ) ^ 2 +
          (((tick_point
              (fun a : Int =>
                ( TRIG_MAX_RATIO : ℝ) * Real.sin (2 * Real.pi * (a : ℝ) / (TRIG_MAX_ANGLE : ℝ)))
              (fun a : Int =>
                ( TRIG_MAX_RATIO : ℝ) * Real.cos (2 * Real.pi * (a : ℝ) / (TRIG_MAX_ANGLE : ℝ)))
              center r d).y - center.y : Int) : ℝ) ^ 2) ∧
    Real.sqrt
        ((((tick_point
              (fun a : Int =>
                ( TRIG_MAX_RATIO : ℝ) * Real.sin (2 * Real.pi * (a : ℝ) / (TRIG_MAX_ANGLE : ℝ)))
              (fun a : Int =>
                ( TRIG_MAX_RATIO : ℝ) * Real.cos (2 * Real.pi * (a : ℝ) / (TRIG_MAX_ANGLE : ℝ)))
              center r d).x - center.x : Int) : ℝ) ^ 2 +
          (((tick_point
              (fun a : Int =>
                ( TRIG_MAX_RATIO : ℝ) * Real.sin (2 * Real.pi * (a : ℝ) / (TRIG_MAX_ANGLE : ℝ)))
              (fun a : Int =>
                ( TRIG_MAX_RATIO : ℝ) * Real.cos (2 * Real.pi * (a : ℝ) / (TRIG_MAX_ANGLE : ℝ)))
              center r d).y - center.y : Int) : ℝ) ^ 2) ≤ (r : ℝ) + 1 ∧
    (0 ≤ DEG_TO_TRIGANGLE d ∧ DEG_TO_TRIGANGLE d < TRIG_MAX_ANGLE) := by
  have hR : (( TRIG_MAX_RATIO : Int) : ℝ) ≠ 0 := by norm_num [ TRIG_MAX_RATIO]
  have hr' : (0 : ℝ) ≤ (r : ℝ) := by exact_mod_cast hr
  have hr2 : (r : ℝ) ≤ 1 ∨ (2 : ℝ) ≤ (r : ℝ) := by
    by_cases h1 : r ≤ 1
    · left; exact_mod_cast h1
    · right
      have : (2 : Int) ≤ r := by omega
      exact_mod_cast this
  obtain ⟨θ, hθ⟩ : ∃ θ : ℝ,
      θ = 2 * Real.pi * ((DEG_TO_TRIGANGLE d : Int) : ℝ) / (TRIG_MAX_ANGLE : ℝ) := ⟨_, rfl⟩
  have eu : (r : ℝ) * 1.0 * (( TRIG_MAX_RATIO : ℝ) * Real.sin θ) / ( TRIG_MAX_RATIO : ℝ)
      = (r : ℝ) * Real.sin θ := by
    field_simp; norm_num; ring
  have ev : (r : ℝ) * 1.0 * (( TRIG_MAX_RATIO : ℝ) * Real.cos θ) / ( TRIG_MAX_RATIO : ℝ)
      = (r : ℝ) * Real.cos θ := by
    field_simp; norm_num; ring
  have hcirc : ((r : ℝ) * Real.sin θ) ^ 2 + ((r : ℝ) * Real.cos θ) ^ 2 = (r : ℝ) ^ 2 := by
    have := Real.sin_sq_add_cos_sq θ
    linear_combination (r : ℝ) ^ 2 * this
  have bs : -(r : ℝ) ≤ (r : ℝ) * Real.sin θ ∧ (r : ℝ) * Real.sin θ ≤ (r : ℝ) := by
    have h1 := Real.neg_one_le_sin θ
    have h2 := Real.sin_le_one θ
    constructor <;> nlinarith
  have bc : -(r : ℝ) ≤ (r : ℝ) * Real.cos θ ∧ (r : ℝ) * Real.cos θ ≤ (r : ℝ) := by
    have h1 := Real.neg_one_le_cos θ
    have h2 := Real.cos_le_one θ
    constructor <;> nlinarith
  obtain ⟨sx0, sx1⟩ := ROUND_abs_le _ r bs.1 bs.2
  obtain ⟨sy0, sy1⟩ := ROUND_abs_le _ r bc.1 bc.2
  have wx : int16 (int32 (center.x + ROUND ((r : ℝ) * Real.sin θ)))
      = center.x + ROUND ((r : ℝ) * Real.sin θ) := by
    rw [int16_int32]; exact int16_of_small _ (by omega) (by omega)
  have wy : int16 (int32 (center.y - ROUND ((r : ℝ) * Real.cos θ)))
      = center.y - ROUND ((r : ℝ) * Real.cos θ) := by
    rw [int16_int32]; exact int16_of_small _ (by omega) (by omega)
  have hx : (tick_point
      (fun a : Int =>
        ( TRIG_MAX_RATIO : ℝ) * Real.sin (2 * Real.pi * (a : ℝ) / (TRIG_MAX_ANGLE : ℝ)))
      (fun a : Int =>
        ( TRIG_MAX_RATIO : ℝ) * Real.cos (2 * Real.pi * (a : ℝ) / (TRIG_MAX_ANGLE : ℝ)))
      center r d).x - center.x = ROUND ((r : ℝ) * Real.sin θ) := by
    simp only [tick_point, tick_angle_point, ← hθ, eu, wx]
    ring
  have hy : (tick_point
      (fun a : Int =>
        ( TRIG_MAX_RATIO : ℝ) * Real.sin (2 * Real.pi * (a : ℝ) / (TRIG_MAX_ANGLE : ℝ)))
      (fun a : Int =>
        ( TRIG_MAX_RATIO : ℝ) * Real.cos (2 * Real.pi * (a : ℝ) / (TRIG_MAX_ANGLE : ℝ)))
      center r d).y - center.y = -ROUND ((r : ℝ) * Real.cos θ) := by
    simp only [tick_point, tick_angle_point, ← hθ, ev, wy]
    ring
  have key := near_circle_bounds (r : ℝ) ((r : ℝ) * Real.sin θ) ((r : ℝ) * Real.cos θ)
    (ROUND ((r : ℝ) * Real.sin θ) : ℝ) (ROUND ((r : ℝ) * Real.cos θ) : ℝ) hr' hr2 hcirc
    (abs_ROUND_sub_le _) (abs_ROUND_sub_le _)
  rw [hx, hy]
  push_cast
  rw [neg_sq]
  refine ⟨key.1, key.2, ?_⟩
  obtain ⟨hd0, hd1⟩ := hd
  have hn : (0 : Int) ≤ d * TRIG_MAX_ANGLE := by
    unfold TRIG_MAX_ANGLE; omega
  have hw : int32 (d * TRIG_MAX_ANGLE) = d * TRIG_MAX_ANGLE := by
    apply int32_of_small <;> unfold TRIG_MAX_ANGLE <;> omega
  rw [DEG_TO_TRIGANGLE, hw, Int.tdiv_eq_ediv hn (by decide)]
  unfold TRIG_MAX_ANGLE
  omega

theorem tick_point_distance_witness :
    (0 : Int) ≤ 35 ∧ ((-32768 : Int) ≤ 72 - 35 ∧ (72 : Int) + 35 ≤ 32767) ∧
    ((-32768 : Int) ≤ 84 - 35 ∧ (84 : Int) + 35 ≤ 32767) ∧
    ((0 : Int) ≤ 285 ∧ (285 : Int) < 360) ∧
    Real.sqrt
        ((((tick_point
              (fun a : Int =>
                ( TRIG_MAX_RATIO : ℝ) * Real.sin (2 * Real.pi * (a : ℝ) / (TRIG_MAX_ANGLE : ℝ)))
              (fun a : Int =>
                ( TRIG_MAX_RATIO : ℝ) * Real.cos (2 * Real.pi * (a : ℝ) / (TRIG_MAX_ANGLE : ℝ)))
              ⟨72, 84⟩ 35 285).x - (⟨72, 84⟩ : GPoint).x : Int) : ℝ) ^ 2 +
          (((tick_point
              (fun a : Int =>
                ( TRIG_MAX_RATIO : ℝ) * Real.sin (2 * Real.pi * (a : ℝ) / (TRIG_MAX_ANGLE : ℝ)))
              (fun a : Int =>
                ( TRIG_MAX_RATIO : ℝ) * Real.cos (2 * Real.pi * (a : ℝ) / (TRIG_MAX_ANGLE : ℝ)))
              ⟨72, 84⟩ 35 285).y - (⟨72, 84⟩ : GPoint).y : Int) : ℝ) ^ 2) ≤ ((35 : Int) : ℝ) + 1 :=
  ⟨by decide, by decide, by decide, by decide,
    (tick_point_distance ⟨72, 84⟩ 35 285 (by decide) (by decide) (by decide) (by decide)).2.1⟩

/-- C1 as stated fails: at the centre `(72, 84)` with radius 40000 and angle 0,
the sine and cosine being exact, `tick_point` returns `(72, 25620)`, because
`84 - 40000` does not fit the 16-bit field; the point is at distance 25536 from
the centre, less than `r - 1 = 39999`. -/
theorem tick_point_distance_wraps :
    tick_point
        (fun a : Int =>
          ( TRIG_MAX_RATIO : ℝ) * Real.sin (2 * Real.pi * (a : ℝ) / (TRIG_MAX_ANGLE : ℝ)))
        (fun a : Int =>
          ( TRIG_MAX_RATIO : ℝ) * Real.cos (2 * Real.pi * (a : ℝ) / (TRIG_MAX_ANGLE : ℝ)))
        ⟨72, 84⟩ 40000 0 = ⟨72, 25620⟩ ∧
    ¬ (((40000 : Int) : ℝ) - 1 ≤
      Real.sqrt
        ((((tick_point
              (fun a : Int =>
                ( TRIG_MAX_RATIO : ℝ) * Real.sin (2 * Real.pi * (a : ℝ) / (TRIG_MAX_ANGLE : ℝ)))
              (fun a : Int =>
                ( TRIG_MAX_RATIO : ℝ) * Real.cos (2 * Real.pi * (a : ℝ) / (TRIG_MAX_ANGLE : ℝ)))
              ⟨72, 84⟩ 40000 0).x - (⟨72, 84⟩ : GPoint).x : Int) : ℝ) ^ 2 +
          (((tick_point
              (fun a : Int =>
                ( TRIG_MAX_RATIO : ℝ) * Real.sin (2 * Real.pi * (a : ℝ) / (TRIG_MAX_ANGLE : ℝ)))
              (fun a : Int =>
                ( TRIG_MAX_RATIO : ℝ) * Real.cos (2 * Real.pi * (a : ℝ) / (TRIG_MAX_ANGLE : ℝ)))
              ⟨72, 84⟩ 40000 0).y - (⟨72, 84⟩ : GPoint).y : Int) : ℝ) ^ 2)) := by
  have h0 : DEG_TO_TRIGANGLE 0 = 0 := by decide
  have hp : tick_point
      (fun a : Int =>
        ( TRIG_MAX_RATIO : ℝ) * Real.sin (2 * Real.pi * (a : ℝ) / (TRIG_MAX_ANGLE : ℝ)))
      (fun a : Int =>
        ( TRIG_MAX_RATIO : ℝ) * Real.cos (2 * Real.pi * (a : ℝ) / (TRIG_MAX_ANGLE : ℝ)))
      ⟨72, 84⟩ 40000 0 = ⟨72, 25620⟩ := by
    simp only [tick_point, h0]
    rw [tick_angle_point_up _ _ ⟨72, 84⟩ 40000 0 (by simp) (by simp)]
    decide
  refine ⟨hp, ?_⟩
  rw [hp]
  have e : (((72 - 72 : Int) : ℝ)) ^ 2 + (((25620 - 84 : Int) : ℝ)) ^ 2 = (25536 : ℝ) ^ 2 := by
    norm_num
  show ¬ (((40000 : Int) : ℝ) - 1 ≤
    Real.sqrt ((((72 - 72 : Int) : ℝ)) ^ 2 + (((25620 - 84 : Int) : ℝ)) ^ 2))
  rw [e, Real.sqrt_sq (by norm_num)]
  norm_num

end PilotWatch
